import Mathlib

/-
  Verification of the ValetKleen chatbot repository.

  Shallow embedding of the conversation engine, cart services and order
  services.  Python dictionaries keyed by strings are modelled as
  association lists (insertion order preserved, `find?` = `.first()`),
  Python floats carrying currency are modelled exactly:
  * in the DB-backed cart service callers pass arbitrary prices, so money
    is a rational number (all source arithmetic is +/* which is exact);
  * in the single-file and v2 chatbots all prices come from the static
    catalog and are whole cents, so money is a natural number of cents.
-/

namespace VKStr

/-- Python `needle in haystack` substring test on lists of characters. -/
def containsSub (needle : List Char) : List Char → Bool
  | [] => needle.isEmpty
  | c :: rest =>
    if needle.isPrefixOf (c :: rest) then true else containsSub needle rest

/-- Python `str.lower()` (ASCII, which is all the sources use). -/
def pyLower (s : List Char) : List Char := s.map Char.toLower

/-- Python `str.strip()`: drop whitespace from both ends. -/
def pyStrip (s : List Char) : List Char :=
  ((s.dropWhile Char.isWhitespace).reverse.dropWhile Char.isWhitespace).reverse

/-- Substring test on `String`s (Python `in`). -/
def containsS (needle hay : String) : Bool := containsSub needle.toList hay.toList

/-- Lowercase a `String`. -/
def lowerS (s : String) : String := ⟨pyLower s.toList⟩

/-- Strip a `String`. -/
def stripS (s : String) : String := ⟨pyStrip s.toList⟩

end VKStr

namespace VKAssoc

/-- Python `dict[key]` lookup on an insertion-ordered association list. -/
def lookupA {α : Type} (l : List (String × α)) (k : String) : Option α :=
  (l.find? (fun p => p.1 == k)).map (·.2)

end VKAssoc

/-!  ## DB-backed cart service
     (`valetkleen_chatbot/models/cart.py`, `services/cart_service.py`) -/

namespace VKDB

/-- `models/cart.py` `CartItem`: one cart row.  `options` holds the decoded
    JSON list (`get_options`/`set_options`); `total` is maintained by
    `calculate_total` as `price * quantity`. -/
structure CartItem where
  id : Nat
  session_id : String
  service_type : String
  item_key : String
  name : String
  price : Rat
  quantity : Int
  options : List String
  total : Rat
deriving DecidableEq, Repr

/-- `CartItem.calculate_total`: sets `total = price * quantity`. -/
def calculateTotal (it : CartItem) : CartItem :=
  { it with total := it.price * it.quantity }

/-- The relevant database state: session rows (only existence is consulted
    by `CartService.add_item`), the autoincrement counter for cart-item
    primary keys, and the `cart_items` table in insertion order. -/
structure CartDB where
  sessions : List String
  nextId : Nat
  items : List CartItem
deriving DecidableEq, Repr

/-- Result dicts of the cart service: `{'success': True, 'message', 'cart_total'}`
    or `{'success': False, 'error'}`. -/
inductive CartResult where
  | ok (message : String) (cart_total : Rat)
  | okMsg (message : String)
  | err (error : String)
deriving DecidableEq, Repr

/-- Replace the first list element satisfying `p` by applying `f` to it. -/
def replaceFirst {α : Type} (p : α → Bool) (f : α → α) : List α → List α
  | [] => []
  | x :: xs => if p x then f x :: xs else x :: replaceFirst p f xs

/-- Delete the first list element satisfying `p`. -/
def eraseFirst {α : Type} (p : α → Bool) : List α → List α
  | [] => []
  | x :: xs => if p x then xs else x :: eraseFirst p xs

/-- `CartItem.query.filter_by(session_id=.., service_type=.., item_key=..)`
    row predicate used by `add_item`. -/
def sameLine (sid st ik : String) (it : CartItem) : Bool :=
  it.session_id == sid && it.service_type == st && it.item_key == ik

/-- Row predicate of `filter_by(session_id=.., id=..)`. -/
def byId (sid : String) (iid : Nat) (it : CartItem) : Bool :=
  it.session_id == sid && it.id == iid

/-- `CartService.get_cart_total`: sum of `item.total` over the session's rows. -/
def get_cart_total (sid : String) (items : List CartItem) : Rat :=
  ((items.filter (fun it => it.session_id == sid)).map (·.total)).sum

/-- `CartService.add_item`.  If a row with the same session, service type and
    item key exists, its quantity is incremented and `calculate_total` rerun;
    otherwise a new row is appended (`options` stored via `set_options`, which
    leaves `[]` when the argument is empty, matching `if options:`). -/
def add_item (db : CartDB) (session_id service_type item_key name : String)
    (price : Rat) (quantity : Int) (options : List String) :
    CartResult × CartDB :=
  if session_id ∉ db.sessions then
    (.err "Session not found", db)
  else
    match db.items.find? (sameLine session_id service_type item_key) with
    | some _ =>
      let items' := replaceFirst (sameLine session_id service_type item_key)
        (fun ex => calculateTotal { ex with quantity := ex.quantity + quantity })
        db.items
      (.ok ("Added " ++ toString quantity ++ "x " ++ name ++ " to cart")
         (get_cart_total session_id items'),
       { db with items := items' })
    | none =>
      let newItem : CartItem :=
        { id := db.nextId, session_id := session_id, service_type := service_type,
          item_key := item_key, name := name, price := price,
          quantity := quantity, options := options, total := price * quantity }
      let items' := db.items ++ [newItem]
      (.ok ("Added " ++ toString quantity ++ "x " ++ name ++ " to cart")
         (get_cart_total session_id items'),
       { db with nextId := db.nextId + 1, items := items' })

/-- `CartService.remove_item`. -/
def remove_item (db : CartDB) (session_id : String) (item_id : Nat) :
    CartResult × CartDB :=
  match db.items.find? (byId session_id item_id) with
  | none => (.err "Item not found in cart", db)
  | some it =>
    let items' := eraseFirst (byId session_id item_id) db.items
    (.ok ("Removed " ++ it.name ++ " from cart") (get_cart_total session_id items'),
     { db with items := items' })

/-- `CartService.update_quantity`: a quantity below 1 delegates to
    `remove_item`; otherwise the row's quantity is set and `calculate_total`
    rerun. -/
def update_quantity (db : CartDB) (session_id : String) (item_id : Nat)
    (new_quantity : Int) : CartResult × CartDB :=
  if new_quantity < 1 then
    remove_item db session_id item_id
  else
    match db.items.find? (byId session_id item_id) with
    | none => (.err "Item not found in cart", db)
    | some it =>
      let items' := replaceFirst (byId session_id item_id)
        (fun ex => calculateTotal { ex with quantity := new_quantity }) db.items
      (.ok ("Updated " ++ it.name ++ " quantity to " ++ toString new_quantity)
         (get_cart_total session_id items'),
       { db with items := items' })

/-- `CartService.clear_cart`: delete all of the session's rows. -/
def clear_cart (db : CartDB) (session_id : String) : CartResult × CartDB :=
  (.okMsg "Cart cleared successfully",
   { db with items := db.items.filter (fun it => !(it.session_id == session_id)) })

/-- Carts reachable from an initial database state by any sequence of
    add / update-quantity / remove operations (the sequences quantified over
    by the spec's total-correctness property). -/
inductive Reach (init : CartDB) : CartDB → Prop
  | refl : Reach init init
  | add (db : CartDB) (sid st ik nm : String) (pr : Rat) (q : Int)
      (opts : List String) : Reach init db →
      Reach init (add_item db sid st ik nm pr q opts).2
  | update (db : CartDB) (sid : String) (iid : Nat) (q : Int) :
      Reach init db → Reach init (update_quantity db sid iid q).2
  | remove (db : CartDB) (sid : String) (iid : Nat) :
      Reach init db → Reach init (remove_item db sid iid).2

/-- The line-total invariant: every row records `total = price * quantity`. -/
def Inv (db : CartDB) : Prop :=
  ∀ it ∈ db.items, it.total = it.price * it.quantity

end VKDB

/-!  ## Order model and order service
     (`valetkleen_chatbot/models/order.py`, `services/order_service.py`) -/

namespace VKOrder

/-- `Order.generate_order_number`: `"VK"` + `datetime.now().strftime('%Y%m%d%H%M')`
    (the minute-resolution timestamp, passed here as a parameter) +
    `str(random.randint(100, 999))` (the drawn suffix, passed as a parameter). -/
def generate_order_number (timestamp : String) (suffix : Nat) : String :=
  "VK" ++ timestamp ++ toString suffix

/-- `models/order.py` `Order` row (the fields the order service touches). -/
structure DBOrder where
  order_number : String
  customer_id : Nat
  total_amount : Rat
  status : String
  pickup_date : String
  pickup_time : String
  created_at : Nat
  updated_at : Nat
deriving DecidableEq, Repr

/-- The `valid_statuses` list of `OrderService.update_order_status`. -/
def valid_statuses : List String := ["pending", "processing", "completed", "cancelled"]

/-- `OrderService.update_order_status`: `False` for a status outside
    `valid_statuses` or an unknown order number (no row touched); otherwise
    sets `status` and `updated_at` on the matching row and returns `True`. -/
def update_order_status (orders : List DBOrder) (order_number status : String)
    (now : Nat) : Bool × List DBOrder :=
  if status ∉ valid_statuses then (false, orders)
  else
    match orders.find? (fun o => o.order_number == order_number) with
    | some _ =>
      (true, VKDB.replaceFirst (fun o => o.order_number == order_number)
        (fun o => { o with status := status, updated_at := now }) orders)
    | none => (false, orders)

/-- Result dicts of `OrderService.cancel_order`. -/
inductive CancelResult where
  | ok (message : String)
  | err (error : String)
deriving DecidableEq, Repr

/-- `OrderService.cancel_order`: unknown order or a `completed`/`cancelled`
    status yields an error and leaves the table untouched; otherwise the row
    becomes `cancelled` with a fresh `updated_at`. -/
def cancel_order (orders : List DBOrder) (order_number : String) (now : Nat) :
    CancelResult × List DBOrder :=
  match orders.find? (fun o => o.order_number == order_number) with
  | none => (.err "Order not found", orders)
  | some o =>
    if o.status ∈ (["completed", "cancelled"] : List String) then
      (.err ("Cannot cancel " ++ o.status ++ " order"), orders)
    else
      (.ok ("Order " ++ order_number ++ " cancelled successfully"),
       VKDB.replaceFirst (fun o2 => o2.order_number == order_number)
         (fun o2 => { o2 with status := "cancelled", updated_at := now }) orders)

end VKOrder

/-!  ## Helper lemmas on `replaceFirst` / `eraseFirst` / `find?` -/

namespace VKDB

lemma mem_replaceFirst {α : Type} (p : α → Bool) (f : α → α) (l : List α) :
    ∀ x ∈ replaceFirst p f l, x ∈ l ∨ ∃ y, y ∈ l ∧ x = f y := by
  induction l with
  | nil => simp [replaceFirst]
  | cons a as ih =>
    intro x hx
    simp only [replaceFirst] at hx
    by_cases h : p a
    · rw [if_pos h] at hx
      rcases List.mem_cons.mp hx with h1 | h1
      · exact Or.inr ⟨a, List.mem_cons_self a as, h1⟩
      · exact Or.inl (List.mem_cons_of_mem _ h1)
    · rw [if_neg h] at hx
      rcases List.mem_cons.mp hx with h1 | h1
      · exact Or.inl (by simp [h1])
      · rcases ih x h1 with h2 | ⟨y, hy, hxy⟩
        · exact Or.inl (List.mem_cons_of_mem _ h2)
        · exact Or.inr ⟨y, List.mem_cons_of_mem _ hy, hxy⟩

lemma mem_eraseFirst {α : Type} (p : α → Bool) (l : List α) :
    ∀ x ∈ eraseFirst p l, x ∈ l := by
  induction l with
  | nil => simp [eraseFirst]
  | cons a as ih =>
    intro x hx
    simp only [eraseFirst] at hx
    by_cases h : p a
    · rw [if_pos h] at hx
      exact List.mem_cons_of_mem _ hx
    · rw [if_neg h] at hx
      rcases List.mem_cons.mp hx with h1 | h1
      · simp [h1]
      · exact List.mem_cons_of_mem _ (ih x h1)

lemma find?_decomp {α : Type} (p : α → Bool) (l1 l2 : List α) (x : α)
    (h1 : ∀ y ∈ l1, p y = false) (hx : p x = true) :
    (l1 ++ x :: l2).find? p = some x := by
  induction l1 with
  | nil => simp [List.find?, hx]
  | cons a as ih =>
    have ha := h1 a (List.mem_cons_self a as)
    simp only [List.cons_append, List.find?, ha]
    exact ih (fun y hy => h1 y (List.mem_cons_of_mem _ hy))

lemma replaceFirst_decomp {α : Type} (p : α → Bool) (f : α → α)
    (l1 l2 : List α) (x : α)
    (h1 : ∀ y ∈ l1, p y = false) (hx : p x = true) :
    replaceFirst p f (l1 ++ x :: l2) = l1 ++ f x :: l2 := by
  induction l1 with
  | nil => simp [replaceFirst, hx]
  | cons a as ih =>
    have ha := h1 a (List.mem_cons_self a as)
    have ih2 := ih (fun y hy => h1 y (List.mem_cons_of_mem _ hy))
    simp [replaceFirst, ha, ih2]

/-- The line-total invariant is preserved by `add_item`. -/
lemma inv_add_item (db : CartDB) (sid st ik nm : String) (pr : Rat) (q : Int)
    (opts : List String) (h : Inv db) :
    Inv (add_item db sid st ik nm pr q opts).2 := by
  unfold add_item
  by_cases hs : sid ∈ db.sessions
  · simp only [hs, not_true_eq_false, if_false]
    cases hfind : db.items.find? (sameLine sid st ik) with
    | some ex =>
      simp only [hfind]
      intro it hit
      rcases mem_replaceFirst _ _ _ it hit with h1 | ⟨y, _, hy⟩
      · exact h it h1
      · subst hy; simp [calculateTotal]
    | none =>
      simp only [hfind]
      intro it hit
      rcases List.mem_append.mp hit with h1 | h1
      · exact h it h1
      · simp only [List.mem_singleton] at h1
        subst h1; rfl
  · simp only [hs, not_false_eq_true, if_true]
    exact h

/-- The line-total invariant is preserved by `remove_item`. -/
lemma inv_remove_item (db : CartDB) (sid : String) (iid : Nat) (h : Inv db) :
    Inv (remove_item db sid iid).2 := by
  unfold remove_item
  cases hfind : db.items.find? (byId sid iid) with
  | none => simpa [hfind] using h
  | some it =>
    simp only [hfind]
    intro x hx
    exact h x (mem_eraseFirst _ _ x hx)

/-- The line-total invariant is preserved by `update_quantity`. -/
lemma inv_update_quantity (db : CartDB) (sid : String) (iid : Nat) (q : Int)
    (h : Inv db) : Inv (update_quantity db sid iid q).2 := by
  unfold update_quantity
  by_cases hq : q < 1
  · simpa [hq] using inv_remove_item db sid iid h
  · simp only [hq, if_false]
    cases hfind : db.items.find? (byId sid iid) with
    | none => simpa [hfind] using h
    | some it =>
      simp only [hfind]
      intro x hx
      rcases mem_replaceFirst _ _ _ x hx with h1 | ⟨y, _, hy⟩
      · exact h x h1
      · subst hy; simp [calculateTotal]

/-- Any database reachable from an invariant-satisfying initial state still
    satisfies the line-total invariant. -/
lemma inv_reach (init db : CartDB) (h0 : Inv init) (h : Reach init db) :
    Inv db := by
  induction h with
  | refl => exact h0
  | add db sid st ik nm pr q opts _ ih => exact inv_add_item db sid st ik nm pr q opts ih
  | update db sid iid q _ ih => exact inv_update_quantity db sid iid q ih
  | remove db sid iid _ ih => exact inv_remove_item db sid iid ih

end VKDB

/-!  ## Claims about the DB-backed cart and order services -/

/-- C5: For every cart reachable by any sequence of add/update_quantity/remove
    operations from an empty cart table, the cart total computed by
    `get_cart_total` equals exactly the sum over the session's lines of
    unit price times quantity. -/
theorem C5_cart_total_exact (init db : VKDB.CartDB) (sid : String)
    (h0 : init.items = []) (h : VKDB.Reach init db) :
    VKDB.get_cart_total sid db.items =
      ((db.items.filter (fun it => it.session_id == sid)).map
        (fun it => it.price * (it.quantity : Rat))).sum := by
  have hInv : VKDB.Inv db := by
    refine VKDB.inv_reach init db ?_ h
    intro it hit
    rw [h0] at hit
    cases hit
  unfold VKDB.get_cart_total
  congr 1
  refine List.map_congr_left ?_
  intro a ha
  exact hInv a (List.mem_of_mem_filter ha)

/-- Witness for C5: a concrete two-step add/update history starting from an
    empty table, on which the total evaluates to the exact sum of line totals. -/
theorem C5_cart_total_exact_witness :
    VKDB.Reach { sessions := ["s"], nextId := 1, items := [] }
      (VKDB.update_quantity
        (VKDB.add_item { sessions := ["s"], nextId := 1, items := [] }
          "s" "dry_cleaning" "pants" "Pants" (15/2 : Rat) 2 []).2 "s" 1 3).2 ∧
    VKDB.get_cart_total "s"
      (VKDB.update_quantity
        (VKDB.add_item { sessions := ["s"], nextId := 1, items := [] }
          "s" "dry_cleaning" "pants" "Pants" (15/2 : Rat) 2 []).2 "s" 1 3).2.items =
      (((VKDB.update_quantity
        (VKDB.add_item { sessions := ["s"], nextId := 1, items := [] }
          "s" "dry_cleaning" "pants" "Pants" (15/2 : Rat) 2 []).2 "s" 1 3).2.items.filter
          (fun it => it.session_id == "s")).map
        (fun it => it.price * (it.quantity : Rat))).sum :=
  ⟨VKDB.Reach.update _ "s" 1 3
      (VKDB.Reach.add _ "s" "dry_cleaning" "pants" "Pants" (15/2 : Rat) 2 []
        VKDB.Reach.refl),
   C5_cart_total_exact _ _ "s" rfl
     (VKDB.Reach.update _ "s" 1 3
       (VKDB.Reach.add _ "s" "dry_cleaning" "pants" "Pants" (15/2 : Rat) 2 []
         VKDB.Reach.refl))⟩

/-- C8: For every database state, session, line id and new quantity below 1,
    `update_quantity` produces exactly the same result and the same resulting
    cart state as `remove_item`. -/
theorem C8_update_zero_is_remove (db : VKDB.CartDB) (sid : String) (iid : Nat)
    (q : Int) (h : q < 1) :
    VKDB.update_quantity db sid iid q = VKDB.remove_item db sid iid := by
  unfold VKDB.update_quantity
  rw [if_pos h]

/-- Witness for C8 at quantity 0 on a concrete one-line cart. -/
theorem C8_update_zero_is_remove_witness :
    ((0 : Int) < 1) ∧
    VKDB.update_quantity
        { sessions := ["s"], nextId := 2,
          items := [{ id := 1, session_id := "s", service_type := "dry_cleaning",
                      item_key := "pants", name := "Pants", price := (15/2 : Rat),
                      quantity := 2, options := [], total := 15 }] } "s" 1 0 =
      VKDB.remove_item
        { sessions := ["s"], nextId := 2,
          items := [{ id := 1, session_id := "s", service_type := "dry_cleaning",
                      item_key := "pants", name := "Pants", price := (15/2 : Rat),
                      quantity := 2, options := [], total := 15 }] } "s" 1 :=
  ⟨by decide, C8_update_zero_is_remove _ "s" 1 0 (by decide)⟩

/-- C10: In the DB-backed cart, adding an item whose (session, service type,
    item key) combination already has a row only increments that row's
    quantity and recomputes its total from its stored unit price: the row's
    price, options and name are untouched, no row is appended (`nextId` is
    unchanged and the table keeps its shape), and the options passed with the
    new add are discarded (the result does not depend on them). -/
theorem C10_add_merge_frame (db : VKDB.CartDB) (sid st ik nm : String)
    (pr : Rat) (q : Int) (opts opts2 : List String)
    (l1 l2 : List VKDB.CartItem) (ex : VKDB.CartItem)
    (hs : sid ∈ db.sessions)
    (hdecomp : db.items = l1 ++ ex :: l2)
    (hl1 : ∀ it ∈ l1, VKDB.sameLine sid st ik it = false)
    (hex : VKDB.sameLine sid st ik ex = true) :
    (VKDB.add_item db sid st ik nm pr q opts).2.items =
      l1 ++ { ex with quantity := ex.quantity + q,
                      total := ex.price * ((ex.quantity + q : Int) : Rat) } :: l2 ∧
    (VKDB.add_item db sid st ik nm pr q opts).2.nextId = db.nextId ∧
    (VKDB.add_item db sid st ik nm pr q opts).2 =
      (VKDB.add_item db sid st ik nm pr q opts2).2 := by
  have hfind : db.items.find? (VKDB.sameLine sid st ik) = some ex := by
    rw [hdecomp]
    exact VKDB.find?_decomp _ l1 l2 ex hl1 hex
  have hrepl : VKDB.replaceFirst (VKDB.sameLine sid st ik)
      (fun e => VKDB.calculateTotal { e with quantity := e.quantity + q })
      db.items =
      l1 ++ { ex with quantity := ex.quantity + q,
                      total := ex.price * ((ex.quantity + q : Int) : Rat) } :: l2 := by
    rw [hdecomp]
    rw [VKDB.replaceFirst_decomp _ _ l1 l2 ex hl1 hex]
    rfl
  refine ⟨?_, ?_, ?_⟩
  · unfold VKDB.add_item
    simp only [hs, not_true_eq_false, if_false, hfind, hrepl]
  · unfold VKDB.add_item
    simp only [hs, not_true_eq_false, if_false, hfind]
  · unfold VKDB.add_item
    simp only [hs, not_true_eq_false, if_false, hfind]

/-- Witness for C10: merging a second add of the same pants line keeps the
    stored price and options and ignores the options of the new add. -/
theorem C10_add_merge_frame_witness :
    ("s" ∈ ({ sessions := ["s"], nextId := 2,
              items := [{ id := 1, session_id := "s", service_type := "dry_cleaning",
                          item_key := "pants", name := "Pants", price := (15/2 : Rat),
                          quantity := 2, options := ["Crease"], total := 15 }] } :
        VKDB.CartDB).sessions) ∧
    (VKDB.add_item
        { sessions := ["s"], nextId := 2,
          items := [{ id := 1, session_id := "s", service_type := "dry_cleaning",
                      item_key := "pants", name := "Pants", price := (15/2 : Rat),
                      quantity := 2, options := ["Crease"], total := 15 }] }
        "s" "dry_cleaning" "pants" "Pants" (99 : Rat) 3 ["No crease"]).2.items =
      [{ id := 1, session_id := "s", service_type := "dry_cleaning",
         item_key := "pants", name := "Pants", price := (15/2 : Rat),
         quantity := 5, options := ["Crease"], total := (75/2 : Rat) }] := by
  refine ⟨by decide, ?_⟩
  have h := C10_add_merge_frame
    { sessions := ["s"], nextId := 2,
      items := [{ id := 1, session_id := "s", service_type := "dry_cleaning",
                  item_key := "pants", name := "Pants", price := (15/2 : Rat),
                  quantity := 2, options := ["Crease"], total := 15 }] }
    "s" "dry_cleaning" "pants" "Pants" (99 : Rat) 3 ["No crease"] ["ignored"]
    [] []
    { id := 1, session_id := "s", service_type := "dry_cleaning",
      item_key := "pants", name := "Pants", price := (15/2 : Rat),
      quantity := 2, options := ["Crease"], total := 15 }
    (by decide) rfl (by intro it hit; cases hit) (by decide)
  rw [h.1]
  norm_num

/-- C9: `update_order_status` fails (returns `False` with the table untouched)
    for any status outside pending/processing/completed/cancelled and for an
    unknown order number, and `cancel_order` on an order whose status is
    already completed or cancelled fails without changing any order's state. -/
theorem C9_status_transition_guards :
    (∀ (orders : List VKOrder.DBOrder) (n st : String) (now : Nat),
      st ∉ VKOrder.valid_statuses →
      VKOrder.update_order_status orders n st now = (false, orders)) ∧
    (∀ (orders : List VKOrder.DBOrder) (n st : String) (now : Nat),
      orders.find? (fun o => o.order_number == n) = none →
      VKOrder.update_order_status orders n st now = (false, orders)) ∧
    (∀ (orders : List VKOrder.DBOrder) (n : String) (now : Nat)
       (o : VKOrder.DBOrder),
      orders.find? (fun o2 => o2.order_number == n) = some o →
      (o.status = "completed" ∨ o.status = "cancelled") →
      VKOrder.cancel_order orders n now =
        (.err ("Cannot cancel " ++ o.status ++ " order"), orders)) := by
  refine ⟨?_, ?_, ?_⟩
  · intro orders n st now h
    unfold VKOrder.update_order_status
    rw [if_pos h]
  · intro orders n st now h
    unfold VKOrder.update_order_status
    by_cases hv : st ∉ VKOrder.valid_statuses
    · rw [if_pos hv]
    · rw [if_neg hv, h]
  · intro orders n now o hfind hstat
    unfold VKOrder.cancel_order
    rw [hfind]
    have hmem : o.status ∈ (["completed", "cancelled"] : List String) := by
      rcases hstat with h | h <;> simp [h]
    simp only [hmem, if_true]

/-- Witness for C9: the three guards evaluated on a one-row order table. -/
theorem C9_status_transition_guards_witness :
    (("shipped" : String) ∉ VKOrder.valid_statuses ∧
      VKOrder.update_order_status
        [{ order_number := "VK1", customer_id := 1, total_amount := 10,
           status := "pending", pickup_date := "d", pickup_time := "t",
           created_at := 0, updated_at := 0 }] "VK1" "shipped" 5 =
        (false,
         [{ order_number := "VK1", customer_id := 1, total_amount := 10,
            status := "pending", pickup_date := "d", pickup_time := "t",
            created_at := 0, updated_at := 0 }])) ∧
    VKOrder.update_order_status
        [{ order_number := "VK1", customer_id := 1, total_amount := 10,
           status := "pending", pickup_date := "d", pickup_time := "t",
           created_at := 0, updated_at := 0 }] "VK2" "processing" 5 =
      (false,
       [{ order_number := "VK1", customer_id := 1, total_amount := 10,
          status := "pending", pickup_date := "d", pickup_time := "t",
          created_at := 0, updated_at := 0 }]) ∧
    VKOrder.cancel_order
        [{ order_number := "VK1", customer_id := 1, total_amount := 10,
           status := "completed", pickup_date := "d", pickup_time := "t",
           created_at := 0, updated_at := 0 }] "VK1" 5 =
      (.err "Cannot cancel completed order",
       [{ order_number := "VK1", customer_id := 1, total_amount := 10,
          status := "completed", pickup_date := "d", pickup_time := "t",
          created_at := 0, updated_at := 0 }]) :=
  ⟨⟨by decide,
    C9_status_transition_guards.1 _ "VK1" "shipped" 5 (by decide)⟩,
   C9_status_transition_guards.2.1 _ "VK2" "processing" 5 (by decide),
   (C9_status_transition_guards.2.2 _ "VK1" 5
      { order_number := "VK1", customer_id := 1, total_amount := 10,
        status := "completed", pickup_date := "d", pickup_time := "t",
        created_at := 0, updated_at := 0 }
      (by decide) (Or.inl rfl)).trans (by decide)⟩

/-- C3: generating 10,000 order numbers within one timestamp window cannot
    yield 10,000 pairwise-distinct values: the random suffix is drawn from
    `randint(100, 999)`, so for every choice of the 10,000 draws, some two of
    the generated order numbers coincide (pigeonhole over the 900 suffixes).
    This contradicts the claim for every draw, so the claim's property fails. -/
theorem C3_order_numbers_collide (ts : String) (draw : Fin 10000 → Nat)
    (h : ∀ i, 100 ≤ draw i ∧ draw i ≤ 999) :
    ∃ i j, i ≠ j ∧
      VKOrder.generate_order_number ts (draw i) =
        VKOrder.generate_order_number ts (draw j) := by
  have hcard : Fintype.card (Fin 900) < Fintype.card (Fin 10000) := by
    simp only [Fintype.card_fin]
    norm_num
  obtain ⟨i, j, hne, heq⟩ :=
    Fintype.exists_ne_map_eq_of_card_lt
      (fun i : Fin 10000 =>
        (⟨draw i - 100, by have := h i; omega⟩ : Fin 900)) hcard
  refine ⟨i, j, hne, ?_⟩
  have hval : draw i - 100 = draw j - 100 := congrArg Fin.val heq
  have hdraw : draw i = draw j := by
    have hi := (h i).1
    have hj := (h j).1
    omega
  rw [VKOrder.generate_order_number, VKOrder.generate_order_number, hdraw]

/-- Witness for C3: the all-100 draw satisfies the range hypothesis and
    indeed yields a collision. -/
theorem C3_order_numbers_collide_witness :
    (∀ i : Fin 10000, 100 ≤ (fun _ : Fin 10000 => (100 : Nat)) i ∧
        (fun _ : Fin 10000 => (100 : Nat)) i ≤ 999) ∧
    ∃ i j : Fin 10000, i ≠ j ∧
      VKOrder.generate_order_number "202610121200"
          ((fun _ : Fin 10000 => (100 : Nat)) i) =
        VKOrder.generate_order_number "202610121200"
          ((fun _ : Fin 10000 => (100 : Nat)) j) :=
  ⟨fun _ => ⟨le_refl 100, by norm_num⟩,
   C3_order_numbers_collide "202610121200" (fun _ => 100)
     (fun _ => ⟨le_refl 100, by norm_num⟩)⟩

/-!  ## Single-file chatbot engine (`valetkleen_chatbot_single.py`)

     Sessions live in the in-memory dict `self.customer_sessions`; it is
     modelled as a function from session id to an optional session.  Handlers
     that index `self.customer_sessions[session_id]` directly raise `KeyError`
     on a missing session, so they return `Option`; `none` models the
     uncaught exception.  Money is whole cents (every catalog price is an
     exact multiple of a cent and Python float arithmetic on these values is
     exact). -/

namespace VKSingle

/-- One entry of a service catalog (`{'name', 'price', 'options'}`). -/
structure CatItem where
  name : String
  price : Nat
  options : List String
deriving DecidableEq, Repr

/-- One service category of `load_service_catalog`. -/
structure CatService where
  name : String
  description : String
  items : List (String × CatItem)
deriving DecidableEq, Repr

/-- `load_service_catalog` of `valetkleen_chatbot_single.py` (prices in cents). -/
def service_catalog : List (String × CatService) :=
  [("dry_cleaning",
    { name := "Dry Cleaning Services",
      description := "Professional dry cleaning for specialty items",
      items :=
        [("office_shirt", { name := "Office Shirt (Dry-Clean)", price := 550, options := [] }),
         ("pants", { name := "Pants", price := 750, options := ["Crease", "No crease"] }),
         ("dress_kids", { name := "Kids Dress", price := 800, options := [] }),
         ("dress_kids_premium", { name := "Kids Premium Dress", price := 1000, options := [] }),
         ("dress_standard", { name := "Standard Dress", price := 1200, options := [] }),
         ("dress_standard_long", { name := "Standard Extra Long Dress", price := 1400, options := [] }),
         ("dress_cocktail", { name := "Cocktail Dress", price := 1600, options := [] }),
         ("dress_formal", { name := "Formal/Gown Dress", price := 2500, options := [] }),
         ("dress_evening", { name := "Evening/Prom Long Dress", price := 3500, options := [] }),
         ("coat_lab", { name := "Lab Coat", price := 950, options := [] }),
         ("coat_short", { name := "Short Coat", price := 1200, options := [] }),
         ("coat_3quarter", { name := "3/4 Length Coat", price := 1400, options := [] }),
         ("coat_rain", { name := "Raincoat", price := 1600, options := [] }),
         ("coat_over", { name := "Overcoat", price := 2000, options := [] }),
         ("coat_down", { name := "Down Filled Coat", price := 2500, options := [] }),
         ("coat_fur", { name := "Fur Lined Coat", price := 3000, options := [] }),
         ("jumpsuit_short", { name := "Short Jump Suit", price := 1000, options := [] }),
         ("jumpsuit_long", { name := "Long Jump Suit", price := 1200, options := [] }),
         ("jumpsuit_premium", { name := "Long Premium Jump Suit", price := 1600, options := [] }),
         ("curtains", { name := "Curtains (Per Panel)", price := 2500, options := [] }),
         ("dashiki", { name := "Men\x27s Dashiki (2 PC)", price := 1800, options := ["Starch", "Hang", "Fold"] }),
         ("agbada", { name := "Men\x27s Agbada (3 PC)", price := 2000, options := ["Starch", "Hang", "Fold"] }),
         ("wedding_dress", { name := "Wedding Dress", price := 18000, options := ["Box", "No box"] })] }),
   ("laundry",
    { name := "Laundry Services",
      description := "Full laundry service with wash, fold, and dry cleaning",
      items :=
        [("bag_small", { name := "Small Bag (12 lb capacity)", price := 2200, options := [] }),
         ("bag_medium", { name := "Medium Bag (18 lb capacity)", price := 3300, options := [] }),
         ("bag_large", { name := "Large Bag (25 lb capacity)", price := 4600, options := [] }),
         ("bag_king", { name := "King Size Premium Bag (35 lb capacity)", price := 6500, options := [] }),
         ("comforter_twin", { name := "Comforter (Twin/Full)", price := 2500, options := [] }),
         ("comforter_queen", { name := "Comforter (Queen/King)", price := 3000, options := [] }),
         ("blanket_twin", { name := "Blanket (Full/Twin)", price := 2000, options := [] }),
         ("blanket_queen", { name := "Blanket (Queen/King)", price := 2500, options := [] }),
         ("mattress_twin", { name := "Mattress Cover (Twin/Full)", price := 1500, options := [] }),
         ("mattress_queen", { name := "Mattress Cover (Queen/King)", price := 2000, options := [] })] })]

/-- `Config.PICKUP_TIME_SLOTS`. -/
def PICKUP_TIME_SLOTS : List String :=
  ["8:00 AM - 10:00 AM", "10:00 AM - 12:00 PM", "12:00 PM - 2:00 PM",
   "2:00 PM - 4:00 PM", "4:00 PM - 6:00 PM"]

/-- Characters of the email regex class `[a-zA-Z0-9._%+-]` (local part). -/
def isLocalChar (c : Char) : Bool :=
  c.isAlpha || c.isDigit || c == '.' || c == '_' || c == '%' || c == '+' || c == '-'

/-- Characters of the email regex class `[a-zA-Z0-9.-]` (domain body). -/
def isDomainChar (c : Char) : Bool :=
  c.isAlpha || c.isDigit || c == '.' || c == '-'

/-- Full match of `^[a-zA-Z0-9._%+-]+@[a-zA-Z0-9.-]+\.[a-zA-Z]{2,}$`.
    A matching string decomposes as `local ++ "@" ++ body ++ "." ++ tld`;
    since none of the three classes contains `@` the split is at the first
    `@`, and since the tld class contains no dot the final dot is the last
    dot of the part after the `@`, so the check below is equivalent to the
    anchored regex. -/
def emailRegexMatch (s : List Char) : Bool :=
  let l := s.takeWhile (fun c => !(c == '@'))
  match s.drop l.length with
  | '@' :: r =>
    !l.isEmpty && l.all isLocalChar &&
    (let d2 := (r.reverse.takeWhile (fun c => !(c == '.'))).reverse
     r.any (fun c => c == '.') &&
     (let d1 := r.take (r.length - d2.length - 1)
      !d1.isEmpty && d1.all isDomainChar && decide (2 ≤ d2.length) &&
        d2.all (fun c => c.isAlpha)))
  | _ => false

/-- `validate_email` of `valetkleen_chatbot_single.py` (empty check + regex). -/
def validate_email (email : String) : Bool × String :=
  if email.isEmpty then (false, "Email is required")
  else if !emailRegexMatch email.toList then
    (false, "Please enter a valid email address (e.g., john@example.com)")
  else (true, "")

/-- Match of `^(\+1)?[2-9]\d{9}$` on the cleaned phone: the optional `+1`
    is forced whenever the string starts with it, since `[2-9]` cannot
    match `+`. -/
def usPhoneMatch (l : List Char) : Bool :=
  let core := fun (m : List Char) =>
    match m with
    | c :: rest =>
      decide ('2' ≤ c) && decide (c ≤ '9') && decide (rest.length = 9) &&
        rest.all Char.isDigit
    | [] => false
  match l with
  | '+' :: '1' :: rest => core rest
  | _ => core l

/-- `validate_phone` of `valetkleen_chatbot_single.py`: strips
    whitespace/hyphens/parens/dots, then matches the US pattern or reports
    too-short / generic diagnostics. -/
def validate_phone (phone : String) : Bool × String :=
  if phone.isEmpty then (false, "Phone number is required")
  else
    let cleaned := phone.toList.filter
      (fun c => !(c.isWhitespace || c == '-' || c == '(' || c == ')' || c == '.'))
    if usPhoneMatch cleaned then (true, "")
    else if cleaned.length < 10 then
      (false, "Phone number is too short. Please include area code.")
    else (false, "Please enter a valid phone number (e.g., 555-123-4567)")

/-- `validate_address` of `valetkleen_chatbot_single.py`. -/
def validate_address (address : String) : Bool × String :=
  if address.isEmpty then (false, "Address is required")
  else if (VKStr.pyStrip address.toList).length < 10 then
    (false, "Please enter a complete address")
  else (true, "")

/-- Python `f"$ {x:.2f}"` (without the space) on an exact-cents amount. -/
def fmtMoney (cents : Nat) : String :=
  toString (cents / 100) ++ "." ++
    (if cents % 100 < 10 then "0" ++ toString (cents % 100)
     else toString (cents % 100))

/-- `", ".join(...)`-style separator join. -/
def joinSep (sep : String) : List String → String
  | [] => ""
  | [x] => x
  | x :: y :: rest => x ++ sep ++ joinSep sep (y :: rest)

/-- `customer_info` dict: fields are filled in order; a missing key is `none`. -/
structure CustomerInfo where
  name : Option String
  email : Option String
  address : Option String
  phone : Option String
  pickup_date : Option String
  pickup_time : Option String
deriving DecidableEq, Repr

/-- The fresh `customer_info` dict `{}`. -/
def emptyInfo : CustomerInfo :=
  { name := none, email := none, address := none, phone := none,
    pickup_date := none, pickup_time := none }

/-- One `conversation_history` entry (`{'user': ..}` or `{'bot': ..}` plus
    timestamp). -/
inductive Turn where
  | user (text : String) (timestamp : String)
  | bot (text : String) (timestamp : String)
deriving DecidableEq, Repr

/-- One entry of a session's `cart` list. -/
structure SCartItem where
  id : Nat
  service_type : String
  item_key : String
  name : String
  price : Nat
  quantity : Nat
  options : List String
  total : Nat
deriving DecidableEq, Repr

/-- A session dict.  `created_at` is set on creation and absent from the
    dict that `handle_checkout` installs (which also records the session id);
    `selected_service` is added by `handle_service_selection` and read with
    `.get`, hence optional. -/
structure Session where
  cart : List SCartItem
  customer_info : CustomerInfo
  conversation_history : List Turn
  current_step : String
  created_at : Option String
  selected_service : Option String
deriving DecidableEq, Repr

/-- The fresh session installed by `create_customer_session`. -/
def freshSession (created : String) : Session :=
  { cart := [], customer_info := emptyInfo, conversation_history := [],
    current_step := "welcome", created_at := some created,
    selected_service := none }

/-- The replacement session installed by `handle_checkout`. -/
def resetSession : Session :=
  { cart := [], customer_info := emptyInfo, conversation_history := [],
    current_step := "welcome", created_at := none, selected_service := none }

/-- Engine state: the `customer_sessions` dict and the global
    `cart_item_counter`. -/
structure EngineState where
  customer_sessions : String → Option Session
  cart_item_counter : Nat

/-- Store a session under an id. -/
def setSession (st : EngineState) (sid : String) (s : Session) : EngineState :=
  { st with customer_sessions := fun k => if k == sid then some s else st.customer_sessions k }

/-- A handler's response dict.  `suggestions` defaults to `[]` for the
    responses that omit the key; `collecting` / `service` model the optional
    keys of the same names. -/
structure Response where
  message : String
  rtype : String
  suggestions : List String := []
  collecting : Option String := none
  service : Option String := none
deriving DecidableEq, Repr

end VKSingle

namespace VKSingle

/-- `int(...)` on a digit run. -/
def digitsToNat (l : List Char) : Nat :=
  l.foldl (fun a c => a * 10 + (c.toNat - 48)) 0

/-- Worker for `re.findall(r'\d+', ...)`: the second argument is the
    current digit run, reversed. -/
def extractNumbersAux : List Char → List Char → List Nat
  | [], cur => if cur.isEmpty then [] else [digitsToNat cur.reverse]
  | c :: rest, cur =>
    if c.isDigit then extractNumbersAux rest (c :: cur)
    else if cur.isEmpty then extractNumbersAux rest []
    else digitsToNat cur.reverse :: extractNumbersAux rest []

/-- `re.findall(r'\d+', user_input)` followed by `int` on each match. -/
def extractNumbers (l : List Char) : List Nat := extractNumbersAux l []

/-- Worker for Python `str.split()`: the second argument is the current
    word, reversed. -/
def wordsAux : List Char → List Char → List (List Char)
  | [], cur => if cur.isEmpty then [] else [cur.reverse]
  | c :: rest, cur =>
    if c.isWhitespace then
      if cur.isEmpty then wordsAux rest [] else cur.reverse :: wordsAux rest []
    else wordsAux rest (c :: cur)

/-- Python `str.split()` (split on whitespace, dropping empty parts). -/
def pyWords (l : List Char) : List (List Char) := wordsAux l []

/-- `get_item_keywords`: extra matching keywords per item key. -/
def get_item_keywords (item_key : String) (item_info : CatItem) : List String :=
  if VKStr.containsS "shirt" item_key then ["shirt", "blouse"]
  else if VKStr.containsS "pants" item_key then ["pants", "trousers"]
  else if VKStr.containsS "dress" item_key then ["dress", "gown"]
  else if VKStr.containsS "coat" item_key then ["coat", "jacket"]
  else if VKStr.containsS "bag" item_key then ["bag", "laundry bag"]
  else if VKStr.containsS "comforter" item_key then ["comforter", "duvet"]
  else if VKStr.containsS "blanket" item_key then ["blanket"]
  else []

/-- One parsed item candidate of `parse_item_request`. -/
structure ParsedS where
  key : String
  name : String
  quantity : Nat
deriving DecidableEq, Repr

/-- The matching loop of `parse_item_request` over the catalog items, in
    insertion order, threading the unconsumed quantity numbers. -/
def parseLoop (input_lower : List Char) :
    List Nat → List (String × CatItem) → List ParsedS
  | _, [] => []
  | nums, (key, info) :: rest =>
    let nameLower := VKStr.pyLower info.name.toList
    if VKStr.containsSub nameLower input_lower
        || (pyWords nameLower).any
             (fun w => decide (3 < w.length) && VKStr.containsSub w input_lower)
        || (get_item_keywords key info).any
             (fun kw => VKStr.containsSub kw.toList input_lower) then
      match nums with
      | n :: more =>
        { key := key, name := info.name, quantity := n } :: parseLoop input_lower more rest
      | [] =>
        { key := key, name := info.name, quantity := 1 } :: parseLoop input_lower [] rest
    else parseLoop input_lower nums rest

/-- `parse_item_request` (`none` = the `KeyError` on an unknown service type). -/
def parse_item_request (user_input service_type : String) : Option (List ParsedS) :=
  match VKAssoc.lookupA service_catalog service_type with
  | none => none
  | some cat =>
    some (parseLoop (VKStr.pyLower user_input.toList)
      (extractNumbers user_input.toList) cat.items)

/-- `add_to_cart` of `valetkleen_chatbot_single.py`: validates session and
    catalog keys, bumps the global `cart_item_counter` and appends a cart
    line priced from the catalog (no option-dependent pricing here). -/
def add_to_cart (st : EngineState) (sid service_type item_key : String)
    (quantity : Nat) (selected_options : List String) : Bool × EngineState :=
  match st.customer_sessions sid with
  | none => (false, st)
  | some s =>
    match VKAssoc.lookupA service_catalog service_type with
    | none => (false, st)
    | some cat =>
      match VKAssoc.lookupA cat.items item_key with
      | none => (false, st)
      | some item =>
        let counter := st.cart_item_counter + 1
        let cart_item : SCartItem :=
          { id := counter, service_type := service_type, item_key := item_key,
            name := item.name, price := item.price, quantity := quantity,
            options := selected_options, total := item.price * quantity }
        (true,
         { customer_sessions :=
             fun k => if k == sid then some { s with cart := s.cart ++ [cart_item] }
                      else st.customer_sessions k,
           cart_item_counter := counter })

/-- `get_item_suggestions`. -/
def get_item_suggestions (service_type : String) : Option (List String) :=
  (VKAssoc.lookupA service_catalog service_type).map
    (fun cat => ((cat.items.map (fun p => p.2.name ++ " - $" ++ fmtMoney p.2.price)).take 8))

/-- Line builder of `get_cart_summary`. -/
def summaryLines (i : Nat) : List SCartItem → String
  | [] => ""
  | it :: rest =>
    toString i ++ ". " ++ toString it.quantity ++ "x " ++ it.name ++
      (if it.options.isEmpty then "" else " (" ++ joinSep ", " it.options ++ ")") ++
      " - $" ++ fmtMoney it.total ++ "\n" ++ summaryLines (i + 1) rest

/-- `get_cart_summary` (`none` = `KeyError` on a missing session). -/
def get_cart_summary (st : EngineState) (sid : String) : Option String :=
  match st.customer_sessions sid with
  | none => none
  | some s =>
    if s.cart.isEmpty then some "🛒 Your cart is empty."
    else
      some ("🛒 **Your Cart:**\n" ++ summaryLines 1 s.cart ++
        "\n💰 **Total: $" ++ fmtMoney (s.cart.map (·.total)).sum ++ "**")

/-- Dry-cleaning menu body and suggestion items (`show_dry_cleaning_menu` loop). -/
def dryMenuLines (i : Nat) : List (String × CatItem) → String × List String
  | [] => ("", [])
  | (_, item) :: rest =>
    let line := toString i ++ ". **" ++ item.name ++ "** - $" ++ fmtMoney item.price ++
      (if item.options.isEmpty then ""
       else " (Options: " ++ joinSep ", " item.options ++ ")") ++ "\n"
    let tm := dryMenuLines (i + 1) rest
    (line ++ tm.1, (toString i ++ ". " ++ item.name) :: tm.2)

/-- Laundry menu body and suggestion items (`show_laundry_menu` loop). -/
def laundryMenuLines (i : Nat) : List (String × CatItem) → String × List String
  | [] => ("", [])
  | (_, item) :: rest =>
    let line := toString i ++ ". **" ++ item.name ++ "** - $" ++ fmtMoney item.price ++ "\n"
    let tm := laundryMenuLines (i + 1) rest
    (line ++ tm.1, (toString i ++ ". " ++ item.name) :: tm.2)

/-- `show_dry_cleaning_menu`. -/
def show_dry_cleaning_menu : Option Response :=
  match VKAssoc.lookupA service_catalog "dry_cleaning" with
  | none => none
  | some cat =>
    let bm := dryMenuLines 1 cat.items
    some { message := "👔 **DRY CLEANING SERVICES** (Specialty cleaning only):\n\n"
             ++ bm.1 ++
             "\n💬 You can say things like:\n• \x27I need 2 office shirts\x27\n• \x27Add 1 cocktail dress\x27\n• \x27I want pants with crease option\x27\n\n**What would you like to add?**",
           rtype := "item_selection", service := some "dry_cleaning",
           suggestions := bm.2.take 8 }

/-- `show_laundry_menu`. -/
def show_laundry_menu : Option Response :=
  match VKAssoc.lookupA service_catalog "laundry" with
  | none => none
  | some cat =>
    let bm := laundryMenuLines 1 cat.items
    some { message := "🧺 **LAUNDRY SERVICES** (Wash, fold, and dry cleaning items):\n\n"
             ++ bm.1 ++
             "\n💬 You can say things like:\n• \x27I need 1 medium bag\x27\n• \x27Add 2 queen comforters\x27\n• \x27I want a large bag\x27\n\n**What would you like to add?**",
           rtype := "item_selection", service := some "laundry",
           suggestions := bm.2 }

/-- `handle_greeting`. -/
def handle_greeting : Response :=
  { message := "👋 Welcome to ValetKleen! I\x27m here to help you with our premium laundry and dry cleaning services.\n\nHow can I assist you today?",
    rtype := "greeting",
    suggestions := ["📋 Place an Order", "🧼 What Services Do You Offer?",
                    "💰 Pricing Information", "🚛 Pickup & Delivery Info",
                    "📞 Contact Information"] }

/-- `start_order_process`: moves the session to `collecting_info` and asks
    for the name. -/
def start_order_process (st : EngineState) (sid : String) :
    Option (Response × EngineState) :=
  match st.customer_sessions sid with
  | none => none
  | some s =>
    some ({ message := "🛍️ Great! I\x27d love to help you place an order.\n\nFirst, I\x27ll need some information from you:\n\n👤 **Your Name:**",
            rtype := "info_collection", collecting := some "name", suggestions := [] },
          setSession st sid { s with current_step := "collecting_info" })

/-- `handle_info_collection`.  Fields are filled strictly in the source's
    order name, email, address, phone, pickup date, pickup time, with the
    three validated fields re-prompted on failure and no state change.
    `available_dates` is the dynamically generated next-7-days list (it
    depends on the wall clock, so it is passed as a parameter).  The result
    is `none` on a missing session (`KeyError`) and when every field is
    already filled (the Python function falls through and returns `None`). -/
def handle_info_collection (st : EngineState) (sid user_input : String)
    (available_dates : List String) : Option (Response × EngineState) :=
  match st.customer_sessions sid with
  | none => none
  | some s =>
    let ci := s.customer_info
    match ci.name with
    | none =>
      let nm := VKStr.stripS user_input
      some ({ message := "Thank you, " ++ nm ++ "! 📧 **Your Email:**",
              rtype := "info_collection", collecting := some "email" },
            setSession st sid { s with customer_info := { ci with name := some nm } })
    | some nm =>
      match ci.email with
      | none =>
        let v := validate_email (VKStr.stripS user_input)
        if !v.1 then
          some ({ message := "❌ " ++ v.2 ++ "\n\nPlease enter a valid email:",
                  rtype := "info_collection", collecting := some "email" }, st)
        else
          some ({ message := "Perfect! 🏠 **Your Address (for pickup & delivery):**",
                  rtype := "info_collection", collecting := some "address" },
                setSession st sid
                  { s with customer_info := { ci with email := some (VKStr.stripS user_input) } })
      | some _ =>
        match ci.address with
        | none =>
          let v := validate_address (VKStr.stripS user_input)
          if !v.1 then
            some ({ message := "❌ " ++ v.2 ++ "\n\nPlease enter your complete address:",
                    rtype := "info_collection", collecting := some "address" }, st)
          else
            some ({ message := "Great! 📱 **Your Phone Number:**",
                    rtype := "info_collection", collecting := some "phone" },
                  setSession st sid
                    { s with customer_info := { ci with address := some (VKStr.stripS user_input) } })
        | some _ =>
          match ci.phone with
          | none =>
            let v := validate_phone (VKStr.stripS user_input)
            if !v.1 then
              some ({ message := "❌ " ++ v.2 ++ "\n\nPlease enter your phone number:",
                      rtype := "info_collection", collecting := some "phone" }, st)
            else
              some ({ message := "Great! 📅 **When would you like us to pick up your items?**\n\nAvailable dates:",
                      rtype := "info_collection", collecting := some "pickup_date",
                      suggestions := available_dates.take 5 },
                    setSession st sid
                      { s with customer_info := { ci with phone := some (VKStr.stripS user_input) } })
          | some _ =>
            match ci.pickup_date with
            | none =>
              let pd := VKStr.stripS user_input
              some ({ message := "Perfect! 🕐 **What time slot works best for pickup on " ++ pd ++ "?**",
                      rtype := "info_collection", collecting := some "pickup_time",
                      suggestions := PICKUP_TIME_SLOTS },
                    setSession st sid
                      { s with customer_info := { ci with pickup_date := some pd } })
            | some pd =>
              match ci.pickup_time with
              | none =>
                let pt := VKStr.stripS user_input
                some ({ message := "Excellent, " ++ nm ++ "! 🎯\n\nWe\x27ll pick up on **" ++ pd ++ "** between **" ++ pt ++ "**.\n\nNow, which service would you like?",
                        rtype := "service_selection",
                        suggestions := ["👔 Dry Cleaning Services",
                                        "🧺 Laundry Services"] },
                      setSession st sid
                        { s with customer_info := { ci with pickup_time := some pt },
                                 current_step := "selecting_service" })
              | some _ => none

/-- `handle_service_selection`. -/
def handle_service_selection (st : EngineState) (sid user_input : String) :
    Option (Response × EngineState) :=
  match st.customer_sessions sid with
  | none => none
  | some s =>
    let processed := VKStr.lowerS user_input
    if VKStr.containsS "dry" processed || VKStr.containsS "dry cleaning" processed then
      show_dry_cleaning_menu.map (fun r =>
        (r, setSession st sid
          { s with selected_service := some "dry_cleaning", current_step := "selecting_items" }))
    else if VKStr.containsS "laundry" processed then
      show_laundry_menu.map (fun r =>
        (r, setSession st sid
          { s with selected_service := some "laundry", current_step := "selecting_items" }))
    else
      some ({ message := "Please select one of our services:", rtype := "service_selection",
              suggestions := ["👔 Dry Cleaning Services", "🧺 Laundry Services"] }, st)

/-- The add-to-cart loop of `handle_item_selection`: adds each parsed item
    (no options are passed), collecting a `"{qty}x {name}"` tag per
    successful add.  `none` models the `KeyError` on a bad catalog key. -/
def addLoop (st : EngineState) (sid svc : String) :
    List ParsedS → Option (List String × EngineState)
  | [] => some ([], st)
  | p :: rest =>
    match VKAssoc.lookupA service_catalog svc with
    | none => none
    | some cat =>
      match VKAssoc.lookupA cat.items p.key with
      | none => none
      | some details =>
        let r := add_to_cart st sid svc p.key p.quantity []
        match addLoop r.2 sid svc rest with
        | none => none
        | some ar =>
          some ((if r.1 then [toString p.quantity ++ "x " ++ details.name] else []) ++ ar.1,
                ar.2)

/-- `handle_item_selection` of `valetkleen_chatbot_single.py`: parses the
    utterance against the selected service's catalog and adds every parsed
    item to the cart immediately. -/
def handle_item_selection (st : EngineState) (sid user_input : String) :
    Option (Response × EngineState) :=
  match st.customer_sessions sid with
  | none => none
  | some s =>
    match s.selected_service with
    | none => handle_service_selection st sid user_input
    | some svc =>
      match parse_item_request user_input svc with
      | none => none
      | some parsed =>
        if parsed.isEmpty then
          (get_item_suggestions svc).map (fun sugg =>
            ({ message := "I couldn\x27t understand that. Please try again or select from the menu:",
               rtype := "item_selection", suggestions := sugg }, st))
        else
          match addLoop st sid svc parsed with
          | none => none
          | some ar =>
            if !ar.1.isEmpty then
              match get_cart_summary ar.2 sid with
              | none => none
              | some summary =>
                some ({ message := "✅ Added to cart: " ++ joinSep ", " ar.1 ++
                          "\n\n" ++ summary ++
                          "\n\nWould you like to add more items or proceed to checkout?",
                        rtype := "cart_update",
                        suggestions := ["Add More Items", "Proceed to Checkout",
                                        "View Full Cart", "Remove Item"] }, ar.2)
            else
              (get_item_suggestions svc).map (fun sugg =>
                ({ message := "Sorry, I couldn\x27t add those items. Please try again:",
                   rtype := "item_selection", suggestions := sugg }, ar.2))

/-- The single-file `handle_option_selection` is a stub returning a fixed
    response and touching no state. -/
def handle_option_selection_response : Response :=
  { message := "Option selection handled", rtype := "option_selection" }

end VKSingle

namespace VKSingle

/-- Per-item lines of `handle_view_cart`. -/
def viewCartLines (i : Nat) : List SCartItem → String
  | [] => ""
  | it :: rest =>
    "**" ++ toString i ++ ".** " ++ toString it.quantity ++ "x " ++ it.name ++ "\n" ++
      (if it.options.isEmpty then ""
       else "   Options: " ++ joinSep ", " it.options ++ "\n") ++
      "   Price: $" ++ fmtMoney it.price ++ " each\n" ++
      "   Subtotal: $" ++ fmtMoney it.total ++ "\n" ++
      "   ID: " ++ toString it.id ++ "\n\n" ++ viewCartLines (i + 1) rest

/-- `handle_view_cart`: a pure read of the session's cart
    (`customer_sessions.get(session_id, {})`, so a missing session reads as
    an empty cart); no state change. -/
def handle_view_cart (st : EngineState) (sid : String) : Response :=
  let cart := match st.customer_sessions sid with
    | some s => s.cart
    | none => []
  if cart.isEmpty then
    { message := "🛒 Your cart is empty. Let\x27s add some items!",
      rtype := "cart_empty",
      suggestions := ["Place an Order", "👔 Dry Cleaning Services",
                      "🧺 Laundry Services", "What Services Do You Offer?"] }
  else
    { message := "🛒 **YOUR SHOPPING CART:**\n\n" ++ viewCartLines 1 cart ++
        "━━━━━━━━━━━━━━━━━━━━\n💰 **TOTAL: $" ++
        fmtMoney (cart.map (·.total)).sum ++ "**\n\nWhat would you like to do next?",
      rtype := "cart_view",
      suggestions := ["Add More Items", "Proceed to Checkout", "Remove Item",
                      "👔 Add Dry Cleaning Items", "🧺 Add Laundry Items"] }

/-- Per-item lines of the checkout order summary
    (`item.get('total', price * quantity)` is the stored `total` field). -/
def checkoutLines : List SCartItem → String
  | [] => ""
  | it :: rest =>
    "• " ++ toString it.quantity ++ "x " ++ it.name ++ " - $" ++ fmtMoney it.total ++
      "\n" ++ checkoutLines rest

/-- The conditional scheduled-pickup block of the checkout summary
    (emitted only when both pickup date and time were collected). -/
def pickupBlock (ci : CustomerInfo) : String :=
  match ci.pickup_date, ci.pickup_time with
  | some pd, some pt =>
    "📅 **Scheduled Pickup:**\n• Date: " ++ pd ++ "\n• Time: " ++ pt ++
      "\n• Address: " ++ ci.address.getD "To be confirmed" ++ "\n\n"
  | _, _ => ""

/-- `handle_checkout` of `valetkleen_chatbot_single.py`: with an empty (or
    missing) cart it reports an error and changes nothing; otherwise it
    renders the order summary (no order number is generated anywhere) and
    replaces the whole session with a fresh dict: cart, customer info and
    the conversation history are all reset. -/
def handle_checkout (st : EngineState) (sid : String) : Response × EngineState :=
  let cart := match st.customer_sessions sid with
    | some s => s.cart
    | none => []
  if cart.isEmpty then
    ({ message := "Your cart is empty! Please add some items first.",
       rtype := "error",
       suggestions := ["Place an Order", "What Services Do You Offer?",
                       "Pricing Information"] }, st)
  else
    let total := (cart.map (·.total)).sum
    let ci := match st.customer_sessions sid with
      | some s => s.customer_info
      | none => emptyInfo
    let order_summary :=
      "🎉 **CHECKOUT SUCCESSFUL!**\n\n📋 **Your Order:**\n" ++ checkoutLines cart ++
        "\n💰 **Total: $" ++ fmtMoney total ++ "**\n\n" ++ pickupBlock ci ++
        "✅ **Next Steps:**\n• Your order has been confirmed\n• We\x27ll pick up your items as scheduled\n• Professional cleaning in 24-48 hours\n• Door-to-door delivery service\n\n🙏 **Thank you for choosing ValetKleen!**\nReady to help with your next order!"
    ({ message := order_summary,
       rtype := "checkout_success",
       suggestions := ["Place Another Order", "What Services Do You Offer?",
                       "Pricing Information", "Contact Information"] },
     setSession st sid resetSession)

/-- `handle_services_inquiry`. -/
def handle_services_inquiry : Response :=
  { message := "We offer dry cleaning and laundry services with pickup & delivery.",
    rtype := "information" }

/-- `handle_pricing_inquiry`. -/
def handle_pricing_inquiry : Response :=
  { message := "Our pricing is transparent with no hidden fees. Dry cleaning starts at $5.50.",
    rtype := "information" }

/-- `handle_delivery_inquiry`. -/
def handle_delivery_inquiry : Response :=
  { message := "We offer convenient door-to-door pickup and delivery service.",
    rtype := "information" }

/-- `handle_about_inquiry`. -/
def handle_about_inquiry : Response :=
  { message := "ValetKleen provides professional laundry and dry cleaning with convenient pickup & delivery.",
    rtype := "information" }

/-- `handle_contact_inquiry`. -/
def handle_contact_inquiry : Response :=
  { message := "Contact us through this chat, phone, or email for scheduling and questions.",
    rtype := "information" }

/-- `handle_process_inquiry`. -/
def handle_process_inquiry : Response :=
  { message := "Simple process: Book → We Pickup → We Clean → We Deliver. Clean clothes, zero hassle!",
    rtype := "information" }

/-- `handle_general_inquiry` (its argument is unused in the source body). -/
def handle_general_inquiry (user_input : String) : Response :=
  { message := "I can help with orders, pricing, services, and pickup scheduling. What would you like to know?",
    rtype := "information" }

/-- The checkout keyword list tested first by `handle_intent`. -/
def checkout_keywords : List String :=
  ["proceed to checkout", "checkout", "complete order", "finish order",
   "place order now"]

/-- The view-cart keyword list tested second by `handle_intent`. -/
def view_cart_keywords : List String :=
  ["view cart", "view full cart", "show cart", "my cart", "cart items"]

/-- `handle_intent` of `valetkleen_chatbot_single.py`: checkout keywords are
    tested first, then view-cart keywords, then the step-specific handlers,
    then the intent dispatch.  `confidence` is received and never read, as in
    the source; `available_dates` parameterizes the wall-clock-dependent
    pickup-date suggestions of the info-collection flow. -/
def handle_intent (st : EngineState) (sid intent user_input : String)
    (confidence : Rat) (available_dates : List String) :
    Option (Response × EngineState) :=
  match st.customer_sessions sid with
  | none => none
  | some session =>
    let user_input_lower := VKStr.lowerS user_input
    if checkout_keywords.any (fun k => VKStr.containsS k user_input_lower) then
      some (handle_checkout st sid)
    else if view_cart_keywords.any (fun k => VKStr.containsS k user_input_lower) then
      some (handle_view_cart st sid, st)
    else if session.current_step == "collecting_info" then
      handle_info_collection st sid user_input available_dates
    else if session.current_step == "selecting_service" then
      handle_service_selection st sid user_input
    else if session.current_step == "selecting_items" then
      handle_item_selection st sid user_input
    else if session.current_step == "adding_options" then
      some (handle_option_selection_response, st)
    else if intent == "greeting" then some (handle_greeting, st)
    else if intent == "place_order" then start_order_process st sid
    else if intent == "services_inquiry" then some (handle_services_inquiry, st)
    else if intent == "pricing_inquiry" then some (handle_pricing_inquiry, st)
    else if intent == "delivery_inquiry" then some (handle_delivery_inquiry, st)
    else if intent == "about_company" then some (handle_about_inquiry, st)
    else if intent == "contact_info" then some (handle_contact_inquiry, st)
    else if intent == "process_inquiry" then some (handle_process_inquiry, st)
    else some (handle_general_inquiry user_input, st)

end VKSingle

/-!  ## V2 chatbot engine (`valetkleen_chatbot_v2.py`)

     Reuses the catalog/response/customer-info shapes of the single-file
     embedding.  The LLM item parser (`parse_item_request_with_llm`) is an
     external collaborator: `handle_item_selection` takes its output
     (`parsed`) as a parameter. -/

namespace VKV2

open VKSingle (CatItem CatService CustomerInfo Turn Response emptyInfo fmtMoney joinSep)

/-- `load_service_catalog` of `valetkleen_chatbot_v2.py` (prices in cents). -/
def service_catalog : List (String × CatService) :=
  [("dry_cleaning",
    { name := "Dry Cleaning Services",
      description := "Professional dry cleaning for specialty items",
      items :=
        [("office_shirt", { name := "Office Shirt (Dry-Clean)", price := 550, options := [] }),
         ("pants", { name := "Pants", price := 750, options := ["Crease", "No crease"] }),
         ("dress_kids", { name := "Kids Dress", price := 800, options := [] }),
         ("dress_kids_premium", { name := "Kids Premium Dress", price := 1000, options := [] }),
         ("dress_standard", { name := "Standard Dress", price := 1200, options := [] }),
         ("dress_standard_long", { name := "Standard Extra Long Dress", price := 1400, options := [] }),
         ("dress_cocktail", { name := "Cocktail Dress", price := 1600, options := [] }),
         ("dress_formal", { name := "Formal/Gown Dress", price := 2500, options := [] }),
         ("dress_evening", { name := "Evening/Prom Long Dress", price := 3500, options := [] }),
         ("coat_lab", { name := "Lab Coat", price := 950, options := [] }),
         ("coat_short", { name := "Short Coat", price := 1200, options := [] }),
         ("coat_3quarter", { name := "3/4 Length Coat", price := 1400, options := [] }),
         ("coat_rain", { name := "Raincoat", price := 1600, options := [] }),
         ("coat_over", { name := "Overcoat", price := 2000, options := [] }),
         ("coat_down", { name := "Down Filled Coat", price := 2500, options := [] }),
         ("coat_fur", { name := "Fur Lined Coat", price := 3000, options := [] }),
         ("jumpsuit_short", { name := "Short Jump Suit", price := 1000, options := [] }),
         ("jumpsuit_long", { name := "Long Jump Suit", price := 1200, options := [] }),
         ("jumpsuit_premium", { name := "Long Premium Jump Suit", price := 1600, options := [] }),
         ("curtains", { name := "Curtains (Per Panel)", price := 2500, options := [] }),
         ("dashiki", { name := "Men\x27s Dashiki (2 PC)", price := 1800,
                       options := ["No Starch", "Light Starch", "Medium Starch",
                                   "Heavy Starch", "Hanger", "Fold"] }),
         ("agbada", { name := "Men\x27s Agbada (3 PC)", price := 2000,
                      options := ["No Starch", "Light Starch", "Medium Starch",
                                  "Heavy Starch", "Hanger", "Fold"] }),
         ("wedding_dress", { name := "Wedding Dress", price := 18000,
                             options := ["Boxed", "No Box"] }),
         ("jacket", { name := "Jacket", price := 950, options := [] }),
         ("hood", { name := "Hood", price := 700, options := [] }),
         ("tuxedo", { name := "Tuxedo", price := 1800, options := [] }),
         ("suit_2piece", { name := "2 Piece Suit", price := 1800, options := [] }),
         ("tie", { name := "Tie", price := 400, options := [] }),
         ("sport_coat", { name := "Sport Coat", price := 950, options := [] }),
         ("blouse", { name := "Blouse", price := 650, options := [] }),
         ("polo_shirt", { name := "Polo Shirt", price := 550, options := [] }),
         ("blazer", { name := "Blazer", price := 700, options := [] }),
         ("suit_3piece", { name := "3 Piece Suit", price := 2000, options := [] }),
         ("skirt", { name := "Skirt", price := 650, options := [] }),
         ("tuxedo_shirt", { name := "Tuxedo Shirt", price := 600, options := [] }),
         ("ladies_shirt", { name := "Ladies Shirt", price := 600, options := [] }),
         ("robe", { name := "Robe", price := 900, options := [] }),
         ("scarf", { name := "Scarf", price := 450, options := [] }),
         ("chef_coat", { name := "Chef Coat", price := 650, options := [] }),
         ("sweater", { name := "Sweater", price := 650, options := [] }),
         ("apron", { name := "Apron", price := 500, options := [] })] }),
   ("laundry",
    { name := "Laundry Services",
      description := "Full laundry service with wash, fold, and dry cleaning",
      items :=
        [("bag_small", { name := "Small Bag (12 lb capacity)", price := 2200, options := [] }),
         ("bag_medium", { name := "Medium Bag (18 lb capacity)", price := 3300, options := [] }),
         ("bag_large", { name := "Large Bag (25 lb capacity)", price := 4600, options := [] }),
         ("bag_king", { name := "King Size Premium Bag (35 lb capacity)", price := 6500, options := [] }),
         ("comforter_twin", { name := "Comforter (Twin/Full)", price := 2500, options := [] }),
         ("comforter_queen", { name := "Comforter (Queen/King)", price := 3000, options := [] }),
         ("blanket_twin", { name := "Blanket (Full/Twin)", price := 2000, options := [] }),
         ("blanket_queen", { name := "Blanket (Queen/King)", price := 2500, options := [] }),
         ("mattress_twin", { name := "Mattress Cover (Twin/Full)", price := 1500, options := [] }),
         ("mattress_queen", { name := "Mattress Cover (Queen/King)", price := 2000, options := [] })] })]

/-- One parsed candidate from the item parser: `{'key', 'quantity'}` plus the
    optional `'options'` key the split in `handle_item_selection` tests with
    `'options' not in item_info`. -/
structure ParsedItem where
  key : String
  quantity : Nat
  options : Option (List String)
deriving DecidableEq, Repr

/-- A v2 cart entry (`add_to_cart` dict; no id field in this variant). -/
structure V2CartItem where
  service_type : String
  item_key : String
  name : String
  price : Nat
  quantity : Nat
  options : List String
  total : Nat
deriving DecidableEq, Repr

/-- The `pickup_info` sub-dict consulted by `handle_checkout`. -/
structure PickupInfo where
  collecting : Option String
  pickup_date : Option String
deriving DecidableEq, Repr

/-- A v2 session dict.  `items_needing_options` / `items_ready_to_add` are
    read with `.get(.., [])`, so an absent key is the empty list;
    `pending_item`, `selected_service` and `pickup_info` are read with
    `.get`, so absent keys are `none`. -/
structure Session where
  cart : List V2CartItem
  customer_info : CustomerInfo
  conversation_history : List Turn
  current_step : String
  created_at : Option String
  selected_service : Option String
  items_needing_options : List ParsedItem
  items_ready_to_add : List ParsedItem
  pending_item : Option ParsedItem
  pickup_info : Option PickupInfo
deriving DecidableEq, Repr

/-- The replacement session installed by the v2 `handle_checkout` (the fresh
    dict has no option-queue or pickup keys, which read back as empty). -/
def resetSession : Session :=
  { cart := [], customer_info := emptyInfo, conversation_history := [],
    current_step := "welcome", created_at := none, selected_service := none,
    items_needing_options := [], items_ready_to_add := [], pending_item := none,
    pickup_info := none }

/-- v2 engine state: the `customer_sessions` dict. -/
structure EngineState where
  customer_sessions : String → Option Session

/-- Store a session under an id. -/
def setSession (st : EngineState) (sid : String) (s : Session) : EngineState :=
  { customer_sessions := fun k => if k == sid then some s else st.customer_sessions k }

/-- The dynamic pricing of the v2 `add_to_cart`: the wedding dress costs
    $180.00 boxed and $150.00 without a box, applied only when options were
    actually selected (`if item_key == 'wedding_dress' and selected_options:`);
    every other item keeps its catalog price. -/
def base_price_for (item_key : String) (selected_options : List String)
    (item_info : CatItem) : Nat :=
  if item_key == "wedding_dress" && !selected_options.isEmpty then
    if selected_options.contains "Boxed" then 18000
    else if selected_options.contains "No Box" then 15000
    else item_info.price
  else item_info.price

/-- The cart line the v2 `add_to_cart` appends. -/
def mkCartItem (service_type item_key : String) (item_info : CatItem)
    (quantity : Nat) (selected_options : List String) : V2CartItem :=
  { service_type := service_type, item_key := item_key,
    name := item_info.name,
    price := base_price_for item_key selected_options item_info,
    quantity := quantity, options := selected_options,
    total := base_price_for item_key selected_options item_info * quantity }

/-- `add_to_cart` of `valetkleen_chatbot_v2.py`: validates session and
    catalog keys, then applies the wedding-dress option pricing before
    appending the line with `total = price * quantity`. -/
def add_to_cart (st : EngineState) (sid service_type item_key : String)
    (quantity : Nat) (selected_options : List String) : Bool × EngineState :=
  match st.customer_sessions sid with
  | none => (false, st)
  | some s =>
    match VKAssoc.lookupA service_catalog service_type with
    | none => (false, st)
    | some cat =>
      match VKAssoc.lookupA cat.items item_key with
      | none => (false, st)
      | some item_info =>
        let cart_item := mkCartItem service_type item_key item_info quantity selected_options
        (true, setSession st sid { s with cart := s.cart ++ [cart_item] })

/-- v2 `get_item_suggestions`. -/
def get_item_suggestions (service_type : String) : Option (List String) :=
  (VKAssoc.lookupA service_catalog service_type).map
    (fun cat => ((cat.items.map (fun p => p.2.name ++ " - $" ++ fmtMoney p.2.price)).take 8))

/-- v2 `get_cart_summary` line builder. -/
def summaryLines (i : Nat) : List V2CartItem → String
  | [] => ""
  | it :: rest =>
    toString i ++ ". " ++ toString it.quantity ++ "x " ++ it.name ++
      (if it.options.isEmpty then "" else " (" ++ joinSep ", " it.options ++ ")") ++
      " - $" ++ fmtMoney it.total ++ "\n" ++ summaryLines (i + 1) rest

/-- v2 `get_cart_summary`. -/
def get_cart_summary (st : EngineState) (sid : String) : Option String :=
  match st.customer_sessions sid with
  | none => none
  | some s =>
    if s.cart.isEmpty then some "🛒 Your cart is empty."
    else
      some ("🛒 **Your Cart:**\n" ++ summaryLines 1 s.cart ++
        "\n💰 **Total: $" ++ fmtMoney (s.cart.map (·.total)).sum ++ "**")

/-- v2 `show_dry_cleaning_menu` (same text as the single-file variant, over
    the v2 catalog). -/
def show_dry_cleaning_menu : Option Response :=
  match VKAssoc.lookupA service_catalog "dry_cleaning" with
  | none => none
  | some cat =>
    let bm := VKSingle.dryMenuLines 1 cat.items
    some { message := "👔 **DRY CLEANING SERVICES** (Specialty cleaning only):\n\n"
             ++ bm.1 ++
             "\n💬 You can say things like:\n• \x27I need 2 office shirts\x27\n• \x27Add 1 cocktail dress\x27\n• \x27I want pants with crease option\x27\n\n**What would you like to add?**",
           rtype := "item_selection", service := some "dry_cleaning",
           suggestions := bm.2.take 8 }

/-- v2 `show_laundry_menu`. -/
def show_laundry_menu : Option Response :=
  match VKAssoc.lookupA service_catalog "laundry" with
  | none => none
  | some cat =>
    let bm := VKSingle.laundryMenuLines 1 cat.items
    some { message := "🧺 **LAUNDRY SERVICES** (Wash, fold, and dry cleaning items):\n\n"
             ++ bm.1 ++
             "\n💬 You can say things like:\n• \x27I need 1 medium bag\x27\n• \x27Add 2 queen comforters\x27\n• \x27I want a large bag\x27\n\n**What would you like to add?**",
           rtype := "item_selection", service := some "laundry",
           suggestions := bm.2 }

/-- v2 `handle_service_selection` (dry wins unless `laundry` is present). -/
def handle_service_selection (st : EngineState) (sid user_input : String) :
    Option (Response × EngineState) :=
  match st.customer_sessions sid with
  | none => none
  | some s =>
    let processed := VKStr.lowerS user_input
    if VKStr.containsS "dry cleaning" processed
        || (VKStr.containsS "dry" processed && !VKStr.containsS "laundry" processed) then
      show_dry_cleaning_menu.map (fun r =>
        (r, setSession st sid
          { s with selected_service := some "dry_cleaning", current_step := "selecting_items" }))
    else if VKStr.containsS "laundry" processed then
      show_laundry_menu.map (fun r =>
        (r, setSession st sid
          { s with selected_service := some "laundry", current_step := "selecting_items" }))
    else
      some ({ message := "Please select one of our services:", rtype := "service_selection",
              suggestions := ["👔 Dry Cleaning Services", "🧺 Laundry Services"] }, st)

end VKV2

namespace VKV2

open VKSingle (CatItem CatService Response emptyInfo fmtMoney joinSep)

/-- The starch/cleaning instruction block shown for agbada and dashiki. -/
def agbadaBlock : String :=
  "**Starch Level Options:**\n• No Starch\n• Light Starch\n• Medium Starch\n• Heavy Starch\n\n**Cleaning Instructions:**\n• Hanger\n• Fold\n\n**Please specify:** Do you want it starched? And should we hang or fold it?\nExample: \"Medium Starch and Hanger\" or \"No Starch and Fold\""

/-- The boxing-option block shown for the wedding dress. -/
def weddingBlock : String :=
  "**Boxing Options:**\n• **Boxed** - $180.00 (Professional preservation box)\n• **No Box** - $150.00 (Standard cleaning only)\n\n**Which option would you prefer?**"

/-- The per-item option block of the option prompts (special formatting for
    agbada/dashiki and the wedding dress). -/
def optionBlock (item_key : String) (item_details : CatItem) : String :=
  if item_key == "agbada" || item_key == "dashiki" then agbadaBlock
  else if item_key == "wedding_dress" then weddingBlock
  else
    "This item has these options:\n\n" ++
      joinSep "\n" (item_details.options.map (fun o => "• " ++ o)) ++
      "\n\n**Which option would you prefer?**"

/-- The first option prompt emitted by `handle_item_selection`. -/
def firstPrompt (p : ParsedItem) (item_details : CatItem) : String :=
  "Perfect! I found: **" ++ toString p.quantity ++ "x " ++ item_details.name ++
    "**\n\n" ++ optionBlock p.key item_details

/-- The follow-up option prompt emitted by `handle_option_selection`. -/
def nextPrompt (addedLine : String) (next : ParsedItem) (next_details : CatItem) : String :=
  addedLine ++ "\n\nNext item: **" ++ toString next.quantity ++ "x " ++
    next_details.name ++ "**\n\n" ++ optionBlock next.key next_details

/-- The needing-options / ready-to-add split of `handle_item_selection`
    (`if item_details['options'] and 'options' not in item_info`), keeping
    each side in parse order.  `none` = `KeyError` on a bad item key. -/
def splitNeeding (cat : CatService) :
    List ParsedItem → Option (List ParsedItem × List ParsedItem)
  | [] => some ([], [])
  | p :: rest =>
    match VKAssoc.lookupA cat.items p.key with
    | none => none
    | some details =>
      match splitNeeding cat rest with
      | none => none
      | some nr =>
        if !details.options.isEmpty && p.options.isNone then
          some (p :: nr.1, nr.2)
        else some (nr.1, p :: nr.2)

/-- The ready-item add loop (items are added with no options, and a
    `"{qty}x {name}"` tag is collected per successful add). -/
def flushAdd (st : EngineState) (sid svc : String) :
    List ParsedItem → Option (List String × EngineState)
  | [] => some ([], st)
  | p :: rest =>
    match VKAssoc.lookupA service_catalog svc with
    | none => none
    | some cat =>
      match VKAssoc.lookupA cat.items p.key with
      | none => none
      | some details =>
        let r := add_to_cart st sid svc p.key p.quantity []
        match flushAdd r.2 sid svc rest with
        | none => none
        | some ar =>
          some ((if r.1 then [toString p.quantity ++ "x " ++ details.name] else []) ++ ar.1,
                ar.2)

/-- v2 `handle_item_selection`, taking the output `parsed` of the
    LLM-backed item parser as a parameter.  Candidates are split into
    needing-options and ready; with a non-empty needing list the first item
    becomes `pending_item`, the rest go to `items_awaiting_options`
    (`items_needing_options`), the ready items are parked, the step becomes
    `adding_options`, and the cart is untouched.  With no needing items all
    ready items are added immediately. -/
def handle_item_selection (st : EngineState) (sid user_input : String)
    (parsed : List ParsedItem) : Option (Response × EngineState) :=
  match st.customer_sessions sid with
  | none => none
  | some s =>
    match s.selected_service with
    | none => handle_service_selection st sid user_input
    | some svc =>
      if parsed.isEmpty then
        (get_item_suggestions svc).map (fun sugg =>
          ({ message := "I couldn\x27t understand that. Please try again or select from the menu:",
             rtype := "item_selection", suggestions := sugg }, st))
      else
        match VKAssoc.lookupA service_catalog svc with
        | none => none
        | some cat =>
          match splitNeeding cat parsed with
          | none => none
          | some nr =>
            match nr.1 with
            | first :: restNeeding =>
              match VKAssoc.lookupA cat.items first.key with
              | none => none
              | some details =>
                some ({ message := firstPrompt first details,
                        rtype := "option_selection",
                        suggestions := details.options ++ ["None"] },
                      setSession st sid
                        { s with items_needing_options := restNeeding,
                                 items_ready_to_add := nr.2,
                                 pending_item := some first,
                                 current_step := "adding_options" })
            | [] =>
              match flushAdd st sid svc nr.2 with
              | none => none
              | some ar =>
                if !ar.1.isEmpty then
                  match get_cart_summary ar.2 sid with
                  | none => none
                  | some summary =>
                    some ({ message := "✅ Added to cart: " ++ joinSep ", " ar.1 ++
                              "\n\n" ++ summary ++
                              "\n\nWould you like to add more items or proceed to checkout?",
                            rtype := "cart_update",
                            suggestions := ["Add More Items", "Proceed to Checkout",
                                            "View Full Cart", "Remove Item"] }, ar.2)
                else
                  (get_item_suggestions svc).map (fun sugg =>
                    ({ message := "Sorry, I couldn\x27t add those items. Please try again:",
                       rtype := "item_selection", suggestions := sugg }, ar.2))

/-- The starch levels recognised for agbada/dashiki. -/
def starch_options : List String :=
  ["No Starch", "Light Starch", "Medium Starch", "Heavy Starch"]

/-- The cleaning instructions recognised for agbada/dashiki. -/
def cleaning_options : List String := ["Hanger", "Fold"]

/-- The clarify response sent when an agbada/dashiki reply lacks the starch
    level or the cleaning instruction. -/
def clarifyResponse : Response :=
  { message := "Please specify both:\n\n• **Starch level:** No Starch, Light Starch, Medium Starch, or Heavy Starch\n• **Cleaning instruction:** Hanger or Fold\n\nExample: \"Medium Starch and Hanger\"",
    rtype := "option_selection",
    suggestions := ["No Starch and Hanger", "Light Starch and Fold",
                    "Medium Starch and Hanger", "Heavy Starch and Fold"] }

/-- The failure response of `handle_option_selection` when `add_to_cart`
    reports `False`. -/
def addFailedResponse : Response :=
  { message := "Sorry, I couldn\x27t add that item. Please try again.",
    rtype := "error", suggestions := ["Try Again", "Start Over"] }

/-- v2 `handle_option_selection`: resolves the pending item's options from
    the reply, adds that item to the cart immediately, then either prompts
    for the next queued item (FIFO) or flushes the parked ready items,
    clears the queues and returns to `selecting_items`. -/
def handle_option_selection (st : EngineState) (sid user_input : String) :
    Option (Response × EngineState) :=
  match st.customer_sessions sid with
  | none => none
  | some s =>
    match s.pending_item with
    | none =>
      some ({ message := "Sorry, there\x27s no pending item for option selection. Please start your order again.",
              rtype := "error", suggestions := ["Place an Order", "View Services"] }, st)
    | some pending =>
      match s.selected_service with
      | none => none
      | some svc =>
        let item_key := pending.key
        let quantity := pending.quantity
        let low := VKStr.lowerS user_input
        let optStep : Option (List String) ⊕ Response :=
          if !VKStr.containsS "none" low then
            match VKAssoc.lookupA service_catalog svc with
            | none => Sum.inl none
            | some cat =>
              match VKAssoc.lookupA cat.items item_key with
              | none => Sum.inl none
              | some item_details =>
                if item_key == "agbada" || item_key == "dashiki" then
                  let starch := starch_options.find?
                    (fun o => VKStr.containsS (VKStr.lowerS o) low)
                  let cleaning := cleaning_options.find?
                    (fun o => VKStr.containsS (VKStr.lowerS o) low)
                  match starch, cleaning with
                  | some a, some b => Sum.inl (some [a, b])
                  | _, _ => Sum.inr clarifyResponse
                else
                  Sum.inl (some (item_details.options.filter
                    (fun o => VKStr.containsS (VKStr.lowerS o) low)))
          else Sum.inl (some [])
        match optStep with
        | Sum.inr clarify => some (clarify, st)
        | Sum.inl none => none
        | Sum.inl (some selected_options) =>
          let r := add_to_cart st sid svc item_key quantity selected_options
          if r.1 then
            match VKAssoc.lookupA service_catalog svc with
            | none => none
            | some cat =>
              match VKAssoc.lookupA cat.items item_key with
              | none => none
              | some nmDetails =>
                let item_name := nmDetails.name
                let options_text :=
                  if selected_options.isEmpty then ""
                  else " (" ++ joinSep ", " selected_options ++ ")"
                match r.2.customer_sessions sid with
                | none => none
                | some s2 =>
                  match s2.items_needing_options with
                  | next :: restq =>
                    match VKAssoc.lookupA cat.items next.key with
                    | none => none
                    | some next_details =>
                      some ({ message := nextPrompt
                                ("✅ Added: " ++ toString quantity ++ "x " ++
                                  item_name ++ options_text) next next_details,
                              rtype := "option_selection",
                              suggestions := next_details.options ++ ["None"] },
                            setSession r.2 sid
                              { s2 with items_needing_options := restq,
                                        pending_item := some next })
                  | [] =>
                    match flushAdd r.2 sid svc s2.items_ready_to_add with
                    | none => none
                    | some fr =>
                      let added := (toString quantity ++ "x " ++ item_name ++
                        options_text) :: fr.1
                      match fr.2.customer_sessions sid with
                      | none => none
                      | some s3 =>
                        let st3 := setSession fr.2 sid
                          { s3 with pending_item := none,
                                    items_needing_options := [],
                                    items_ready_to_add := [],
                                    current_step := "selecting_items" }
                        match get_cart_summary st3 sid with
                        | none => none
                        | some summary =>
                          some ({ message := "✅ Added to cart: " ++
                                    joinSep ", " added ++ "\n\n" ++ summary ++
                                    "\n\nWould you like to add more items or proceed to checkout?",
                                  rtype := "cart_update",
                                  suggestions := ["Add More Items", "Proceed to Checkout",
                                                  "View Full Cart", "Remove Item"] }, st3)
          else
            some (addFailedResponse, st)

/-- The session materialized by `session = customer_sessions.get(sid, {})`
    when the id is unknown (every key then reads as empty/absent). -/
def emptySession : Session :=
  { cart := [], customer_info := emptyInfo, conversation_history := [],
    current_step := "welcome", created_at := none, selected_service := none,
    items_needing_options := [], items_ready_to_add := [], pending_item := none,
    pickup_info := none }

/-- Per-item lines of the v2 checkout summary.  The source reads
    `item.get('total_price', item.get('price', 0) * quantity)`; cart items
    carry no `total_price` key, so the fallback `price * quantity` is used. -/
def checkoutLines : List V2CartItem → String
  | [] => ""
  | it :: rest =>
    "• " ++ toString it.quantity ++ "x " ++ it.name ++ " - $" ++
      fmtMoney (it.price * it.quantity) ++ "\n" ++ checkoutLines rest

/-- v2 `handle_checkout`: empty cart errors out; without a collected pickup
    date it switches to `collecting_pickup_info`; otherwise it renders the
    summary (again no order number anywhere) and replaces the session with a
    fresh dict, clearing cart, customer info and the conversation history. -/
def handle_checkout (st : EngineState) (sid : String) : Response × EngineState :=
  let session := match st.customer_sessions sid with
    | some s => s
    | none => emptySession
  let cart := session.cart
  if cart.isEmpty then
    ({ message := "Your cart is empty! Please add some items first.",
       rtype := "error",
       suggestions := ["Place an Order", "What Services Do You Offer?",
                       "Pricing Information"] }, st)
  else
    let pickup_date := match session.pickup_info with
      | some pi => pi.pickup_date
      | none => none
    if pickup_date.isNone then
      ({ message := "📅 **Pickup Scheduling**\n\nGreat! Let\x27s schedule your pickup.\n\n**Please provide your pickup date** (e.g., 2024-01-15, Tomorrow, Monday):",
         rtype := "pickup_scheduling",
         suggestions := ["Tomorrow", "Monday", "2024-01-15", "Next Week"] },
       setSession st sid
         { session with current_step := "collecting_pickup_info",
                        pickup_info := some { collecting := some "pickup_date",
                                              pickup_date := none } })
    else
      let total := (cart.map (fun it => it.price * it.quantity)).sum
      let order_summary :=
        "🎉 **CHECKOUT SUCCESSFUL!**\n\n📋 **Your Order:**\n" ++ checkoutLines cart ++
          "\n💰 **Total: $" ++ fmtMoney total ++
          "**\n\n✅ **Next Steps:**\n• Your order has been submitted\n• We\x27ll contact you for pickup scheduling\n• Professional cleaning in 24-48 hours\n• Door-to-door delivery service\n\n🙏 **Thank you for choosing ValetKleen!**\nReady to help with your next order!"
      ({ message := order_summary,
         rtype := "checkout_success",
         suggestions := ["Place Another Order", "What Services Do You Offer?",
                         "Pricing Information", "Contact Information"] },
       setSession st sid resetSession)

end VKV2

namespace VKV2

open VKSingle (CatItem CatService Response)

/-- Looking the stored session straight back up. -/
lemma setSession_self (st : EngineState) (sid : String) (x : Session) :
    (setSession st sid x).customer_sessions sid = some x := by
  simp [setSession]

/-- `add_to_cart` under a found session and valid catalog keys: it succeeds
    and appends exactly the priced line to the session's cart. -/
lemma add_to_cart_found (st : EngineState) (sid stype ikey : String)
    (qty : Nat) (opts : List String) (s : Session) (cat : CatService)
    (item : CatItem)
    (hs : st.customer_sessions sid = some s)
    (hcat : VKAssoc.lookupA service_catalog stype = some cat)
    (hitem : VKAssoc.lookupA cat.items ikey = some item) :
    add_to_cart st sid stype ikey qty opts =
      (true, setSession st sid
        { s with cart := s.cart ++ [mkCartItem stype ikey item qty opts] }) := by
  simp only [add_to_cart, hs, hcat, hitem]

end VKV2

/-- C6: the wedding garment's unit price is resolved from the selected
    option at add time, not from the catalog constant: adding a wedding
    dress with option `Boxed` appends a line with unit price $180.00, with
    `No Box` a line with unit price $150.00, each with line total equal to
    that price times the quantity (while the catalog lists a single constant
    price of $180.00 for the item). -/
theorem C6_wedding_option_pricing (st : VKV2.EngineState) (sid : String)
    (s : VKV2.Session) (qty : Nat)
    (hs : st.customer_sessions sid = some s) :
    (VKV2.add_to_cart st sid "dry_cleaning" "wedding_dress" qty ["Boxed"]).1 = true ∧
    (VKV2.add_to_cart st sid "dry_cleaning" "wedding_dress" qty ["Boxed"]).2.customer_sessions sid =
      some { s with cart := s.cart ++
        [{ service_type := "dry_cleaning", item_key := "wedding_dress",
           name := "Wedding Dress", price := 18000, quantity := qty,
           options := ["Boxed"], total := 18000 * qty }] } ∧
    (VKV2.add_to_cart st sid "dry_cleaning" "wedding_dress" qty ["No Box"]).1 = true ∧
    (VKV2.add_to_cart st sid "dry_cleaning" "wedding_dress" qty ["No Box"]).2.customer_sessions sid =
      some { s with cart := s.cart ++
        [{ service_type := "dry_cleaning", item_key := "wedding_dress",
           name := "Wedding Dress", price := 15000, quantity := qty,
           options := ["No Box"], total := 15000 * qty }] } ∧
    ((VKAssoc.lookupA VKV2.service_catalog "dry_cleaning").bind
      (fun cat => (VKAssoc.lookupA cat.items "wedding_dress").map (·.price))) =
      some 18000 := by
  have h1 := VKV2.add_to_cart_found st sid "dry_cleaning" "wedding_dress" qty
    ["Boxed"] s _ _ hs rfl rfl
  have h2 := VKV2.add_to_cart_found st sid "dry_cleaning" "wedding_dress" qty
    ["No Box"] s _ _ hs rfl rfl
  refine ⟨by rw [h1], ?_, by rw [h2], ?_, rfl⟩
  · rw [h1]
    exact VKV2.setSession_self _ _ _
  · rw [h2]
    exact VKV2.setSession_self _ _ _

/-- Witness for C6 on a fresh session with quantity 1. -/
theorem C6_wedding_option_pricing_witness :
    (({ customer_sessions := fun k => if k == "s1" then some VKV2.resetSession else none } :
        VKV2.EngineState).customer_sessions "s1" = some VKV2.resetSession) ∧
    ((VKV2.add_to_cart
        { customer_sessions := fun k => if k == "s1" then some VKV2.resetSession else none }
        "s1" "dry_cleaning" "wedding_dress" 1 ["Boxed"]).1 = true ∧
     (VKV2.add_to_cart
        { customer_sessions := fun k => if k == "s1" then some VKV2.resetSession else none }
        "s1" "dry_cleaning" "wedding_dress" 1 ["Boxed"]).2.customer_sessions "s1" =
       some { VKV2.resetSession with cart := VKV2.resetSession.cart ++
         [{ service_type := "dry_cleaning", item_key := "wedding_dress",
            name := "Wedding Dress", price := 18000, quantity := 1,
            options := ["Boxed"], total := 18000 * 1 }] } ∧
     (VKV2.add_to_cart
        { customer_sessions := fun k => if k == "s1" then some VKV2.resetSession else none }
        "s1" "dry_cleaning" "wedding_dress" 1 ["No Box"]).1 = true ∧
     (VKV2.add_to_cart
        { customer_sessions := fun k => if k == "s1" then some VKV2.resetSession else none }
        "s1" "dry_cleaning" "wedding_dress" 1 ["No Box"]).2.customer_sessions "s1" =
       some { VKV2.resetSession with cart := VKV2.resetSession.cart ++
         [{ service_type := "dry_cleaning", item_key := "wedding_dress",
            name := "Wedding Dress", price := 15000, quantity := 1,
            options := ["No Box"], total := 15000 * 1 }] } ∧
     ((VKAssoc.lookupA VKV2.service_catalog "dry_cleaning").bind
       (fun cat => (VKAssoc.lookupA cat.items "wedding_dress").map (·.price))) =
       some 18000) :=
  ⟨rfl,
   C6_wedding_option_pricing
     { customer_sessions := fun k => if k == "s1" then some VKV2.resetSession else none }
     "s1" VKV2.resetSession 1 rfl⟩

namespace VKV2

open VKSingle (CatItem CatService Response)

/-- The cart line produced for one ready item during a flush (ready items
    are added with no options, so at catalog price). -/
def flushLine (svc : String) (cat : CatService) (p : ParsedItem) : List V2CartItem :=
  match VKAssoc.lookupA cat.items p.key with
  | some d => [mkCartItem svc p.key d p.quantity []]
  | none => []

/-- The cart lines appended by flushing a ready list, in order. -/
def flushLines (svc : String) (cat : CatService) : List ParsedItem → List V2CartItem
  | [] => []
  | p :: rest => flushLine svc cat p ++ flushLines svc cat rest

/-- The `"{qty}x {name}"` tags collected by a flush. -/
def flushTags (cat : CatService) : List ParsedItem → List String
  | [] => []
  | p :: rest =>
    (match VKAssoc.lookupA cat.items p.key with
     | some d => [toString p.quantity ++ "x " ++ d.name]
     | none => []) ++ flushTags cat rest

/-- A flush over ready items with valid keys succeeds, appending exactly
    their lines to the session's cart in order. -/
lemma flushAdd_ok (sid svc : String) (cat : CatService)
    (hcat : VKAssoc.lookupA service_catalog svc = some cat) :
    ∀ (ready : List ParsedItem) (st : EngineState) (s : Session),
      st.customer_sessions sid = some s →
      (∀ p ∈ ready, (VKAssoc.lookupA cat.items p.key).isSome) →
      ∃ st', flushAdd st sid svc ready = some (flushTags cat ready, st') ∧
        st'.customer_sessions sid =
          some { s with cart := s.cart ++ flushLines svc cat ready } := by
  intro ready
  induction ready with
  | nil =>
    intro st s hs _
    refine ⟨st, rfl, ?_⟩
    simpa [flushLines] using hs
  | cons p rest ih =>
    intro st s hs hall
    obtain ⟨d, hd⟩ := Option.isSome_iff_exists.mp (hall p (List.mem_cons_self p rest))
    have hadd := add_to_cart_found st sid svc p.key p.quantity [] s cat d hs hcat hd
    have hs1 := setSession_self st sid
      { s with cart := s.cart ++ [mkCartItem svc p.key d p.quantity []] }
    obtain ⟨st', hfe, hse⟩ := ih (setSession st sid
        { s with cart := s.cart ++ [mkCartItem svc p.key d p.quantity []] })
      { s with cart := s.cart ++ [mkCartItem svc p.key d p.quantity []] }
      hs1 (fun q hq => hall q (List.mem_cons_of_mem _ hq))
    refine ⟨st', ?_, ?_⟩
    · simp only [flushAdd, hcat, hd, hadd, hfe, flushTags]
      rfl
    · rw [hse]
      simp [flushLines, flushLine, hd]
end VKV2

/-- C1 (amended): in the v2 engine, (i) an item-selection batch with a
    non-empty needs-options list prompts for its first option item, queues
    the rest in FIFO order, parks the ready items and leaves the cart
    untouched; (ii) when the pending item's options are resolved and the
    queue is non-empty, that item alone is appended to the cart immediately
    and the next queued item becomes pending; (iii) when the queue is empty,
    the final option item and all parked ready items are appended together
    and the option state is cleared.  (Resolved option items therefore enter
    the cart before the queue is drained; only ready items wait for the
    drain.) -/
theorem C1_option_queue_discipline :
    (∀ (st : VKV2.EngineState) (sid input : String)
       (parsed : List VKV2.ParsedItem) (s : VKV2.Session) (svc : String)
       (cat : VKSingle.CatService) (first : VKV2.ParsedItem)
       (rest ready : List VKV2.ParsedItem) (details : VKSingle.CatItem),
      st.customer_sessions sid = some s →
      s.selected_service = some svc →
      parsed.isEmpty = false →
      VKAssoc.lookupA VKV2.service_catalog svc = some cat →
      VKV2.splitNeeding cat parsed = some (first :: rest, ready) →
      VKAssoc.lookupA cat.items first.key = some details →
      (VKV2.handle_item_selection st sid input parsed).map
          (fun rs => (rs.1.rtype, rs.2.customer_sessions sid)) =
        some ("option_selection",
          some { s with items_needing_options := rest,
                        items_ready_to_add := ready,
                        pending_item := some first,
                        current_step := "adding_options" })) ∧
    (∀ (st : VKV2.EngineState) (sid input : String) (s : VKV2.Session)
       (pending : VKV2.ParsedItem) (svc : String) (cat : VKSingle.CatService)
       (details : VKSingle.CatItem) (next : VKV2.ParsedItem)
       (restq : List VKV2.ParsedItem) (next_details : VKSingle.CatItem),
      st.customer_sessions sid = some s →
      s.pending_item = some pending →
      s.selected_service = some svc →
      VKAssoc.lookupA VKV2.service_catalog svc = some cat →
      VKAssoc.lookupA cat.items pending.key = some details →
      VKStr.containsS "none" (VKStr.lowerS input) = false →
      (pending.key == "agbada") = false →
      (pending.key == "dashiki") = false →
      s.items_needing_options = next :: restq →
      VKAssoc.lookupA cat.items next.key = some next_details →
      (VKV2.handle_option_selection st sid input).map
          (fun rs => (rs.1.rtype, rs.2.customer_sessions sid)) =
        some ("option_selection",
          some { s with
            cart := s.cart ++ [VKV2.mkCartItem svc pending.key details pending.quantity
              (details.options.filter
                (fun o => VKStr.containsS (VKStr.lowerS o) (VKStr.lowerS input)))],
            items_needing_options := restq,
            pending_item := some next })) ∧
    (∀ (st : VKV2.EngineState) (sid input : String) (s : VKV2.Session)
       (pending : VKV2.ParsedItem) (svc : String) (cat : VKSingle.CatService)
       (details : VKSingle.CatItem),
      st.customer_sessions sid = some s →
      s.pending_item = some pending →
      s.selected_service = some svc →
      VKAssoc.lookupA VKV2.service_catalog svc = some cat →
      VKAssoc.lookupA cat.items pending.key = some details →
      VKStr.containsS "none" (VKStr.lowerS input) = false →
      (pending.key == "agbada") = false →
      (pending.key == "dashiki") = false →
      s.items_needing_options = [] →
      (∀ p ∈ s.items_ready_to_add, (VKAssoc.lookupA cat.items p.key).isSome) →
      (VKV2.handle_option_selection st sid input).map
          (fun rs => (rs.1.rtype, rs.2.customer_sessions sid)) =
        some ("cart_update",
          some { s with
            cart := s.cart ++ [VKV2.mkCartItem svc pending.key details pending.quantity
              (details.options.filter
                (fun o => VKStr.containsS (VKStr.lowerS o) (VKStr.lowerS input)))] ++
              VKV2.flushLines svc cat s.items_ready_to_add,
            items_needing_options := [],
            items_ready_to_add := [],
            pending_item := none,
            current_step := "selecting_items" })) := by
  refine ⟨?_, ?_, ?_⟩
  · intro st sid input parsed s svc cat first rest ready details
      hs hsvc hne hcat hsplit hdet
    simp only [VKV2.handle_item_selection, hs, hsvc, hne, hcat, hsplit, hdet,
      Bool.false_eq_true, if_false]
    simp [VKV2.setSession_self]
  · intro st sid input s pending svc cat details next restq next_details
      hs hp hsvc hcat hdet hnone ha hdash hq hnextdet
    have hadd := VKV2.add_to_cart_found st sid svc pending.key pending.quantity
      (details.options.filter
        (fun o => VKStr.containsS (VKStr.lowerS o) (VKStr.lowerS input)))
      s cat details hs hcat hdet
    simp only [VKV2.handle_option_selection, hs, hp, hsvc, hcat, hdet, hnone,
      ha, hdash, Bool.not_false, if_true, Bool.false_or, Bool.or_self,
      Bool.false_eq_true, if_false, hadd, VKV2.setSession_self, hq, hnextdet]
    simp [VKV2.setSession_self]
  · intro st sid input s pending svc cat details
      hs hp hsvc hcat hdet hnone ha hdash hq hready
    have hadd := VKV2.add_to_cart_found st sid svc pending.key pending.quantity
      (details.options.filter
        (fun o => VKStr.containsS (VKStr.lowerS o) (VKStr.lowerS input)))
      s cat details hs hcat hdet
    have hs1 := VKV2.setSession_self st sid
      { s with cart := s.cart ++ [VKV2.mkCartItem svc pending.key details pending.quantity
          (details.options.filter
            (fun o => VKStr.containsS (VKStr.lowerS o) (VKStr.lowerS input)))] }
    obtain ⟨st', hfe, hse⟩ := VKV2.flushAdd_ok sid svc cat hcat s.items_ready_to_add _ _ hs1
      (by simpa using hready)
    simp only [hp, hsvc, hq] at hadd hs1 hfe hse
    simp only [VKV2.handle_option_selection, hs, hp, hsvc, hcat, hdet, hnone,
      ha, hdash, Bool.not_false, if_true, Bool.false_or, Bool.or_self,
      Bool.false_eq_true, if_false, hadd, VKV2.setSession_self, hfe, hse,
      VKV2.get_cart_summary]
    simp [VKV2.setSession_self, List.isEmpty_iff, List.append_assoc]

/-- Counterexample to C1 as stated: from the batch
    [pants (has options), office shirt (no options), wedding dress (has
    options)] in one turn, after the item-selection turn the cart is empty
    and pants is pending — but after answering pants' option prompt
    (`"Crease"`) the pants line is already in the cart while the wedding
    dress is still awaiting its options, so the batch is visible in the cart
    before the option queue is drained. -/
theorem C1_counterexample :
    (VKV2.handle_item_selection
        { customer_sessions := fun k => if k == "s1" then some
            { cart := [], customer_info := VKSingle.emptyInfo,
              conversation_history := [], current_step := "selecting_items",
              created_at := some "t0", selected_service := some "dry_cleaning",
              items_needing_options := [], items_ready_to_add := [],
              pending_item := none, pickup_info := none } else none }
        "s1" "2 pants, an office shirt and a wedding dress"
        [{ key := "pants", quantity := 2, options := none },
         { key := "office_shirt", quantity := 1, options := none },
         { key := "wedding_dress", quantity := 1, options := none }]).map
        (fun rs => (rs.2.customer_sessions "s1").map
          (fun s => (s.cart, s.pending_item, s.items_needing_options,
                     s.items_ready_to_add, s.current_step))) =
      some (some ([], some { key := "pants", quantity := 2, options := none },
        [{ key := "wedding_dress", quantity := 1, options := none }],
        [{ key := "office_shirt", quantity := 1, options := none }],
        "adding_options")) ∧
    ((VKV2.handle_item_selection
        { customer_sessions := fun k => if k == "s1" then some
            { cart := [], customer_info := VKSingle.emptyInfo,
              conversation_history := [], current_step := "selecting_items",
              created_at := some "t0", selected_service := some "dry_cleaning",
              items_needing_options := [], items_ready_to_add := [],
              pending_item := none, pickup_info := none } else none }
        "s1" "2 pants, an office shirt and a wedding dress"
        [{ key := "pants", quantity := 2, options := none },
         { key := "office_shirt", quantity := 1, options := none },
         { key := "wedding_dress", quantity := 1, options := none }]).bind
      (fun rs => VKV2.handle_option_selection rs.2 "s1" "Crease")).map
        (fun rs => (rs.2.customer_sessions "s1").map
          (fun s => (s.cart, s.pending_item, s.items_ready_to_add))) =
      some (some
        ([{ service_type := "dry_cleaning", item_key := "pants", name := "Pants",
            price := 750, quantity := 2, options := ["Crease"], total := 1500 }],
         some { key := "wedding_dress", quantity := 1, options := none },
         [{ key := "office_shirt", quantity := 1, options := none }])) := by
  constructor
  · rfl
  · rfl

/-- Witness for C1: the three queue-discipline clauses applied at concrete
    batches from the dry-cleaning catalog. -/
theorem C1_option_queue_discipline_witness :
    ((VKAssoc.lookupA VKV2.service_catalog "dry_cleaning").bind
      (fun cat => VKV2.splitNeeding cat
        [{ key := "pants", quantity := 2, options := none },
         { key := "office_shirt", quantity := 1, options := none },
         { key := "wedding_dress", quantity := 1, options := none }])).isSome ∧
    (VKV2.handle_item_selection
        { customer_sessions := fun k => if k == "s1" then some
            { cart := [], customer_info := VKSingle.emptyInfo,
              conversation_history := [], current_step := "selecting_items",
              created_at := some "t0", selected_service := some "dry_cleaning",
              items_needing_options := [], items_ready_to_add := [],
              pending_item := none, pickup_info := none } else none }
        "s1" "2 pants, an office shirt and a wedding dress"
        [{ key := "pants", quantity := 2, options := none },
         { key := "office_shirt", quantity := 1, options := none },
         { key := "wedding_dress", quantity := 1, options := none }]).map
        (fun rs => (rs.1.rtype, rs.2.customer_sessions "s1")) =
      some ("option_selection", some
        { cart := [], customer_info := VKSingle.emptyInfo,
          conversation_history := [], current_step := "adding_options",
          created_at := some "t0", selected_service := some "dry_cleaning",
          items_needing_options := [{ key := "wedding_dress", quantity := 1, options := none }],
          items_ready_to_add := [{ key := "office_shirt", quantity := 1, options := none }],
          pending_item := some { key := "pants", quantity := 2, options := none },
          pickup_info := none }) ∧
    (VKV2.handle_option_selection
        { customer_sessions := fun k => if k == "s1" then some
            { cart := [], customer_info := VKSingle.emptyInfo,
              conversation_history := [], current_step := "adding_options",
              created_at := some "t0", selected_service := some "dry_cleaning",
              items_needing_options := [{ key := "wedding_dress", quantity := 1, options := none }],
              items_ready_to_add := [{ key := "office_shirt", quantity := 1, options := none }],
              pending_item := some { key := "pants", quantity := 2, options := none },
              pickup_info := none } else none }
        "s1" "Crease").map
        (fun rs => (rs.1.rtype, rs.2.customer_sessions "s1")) =
      some ("option_selection", some
        { cart := [{ service_type := "dry_cleaning", item_key := "pants",
                     name := "Pants", price := 750, quantity := 2,
                     options := ["Crease"], total := 1500 }],
          customer_info := VKSingle.emptyInfo,
          conversation_history := [], current_step := "adding_options",
          created_at := some "t0", selected_service := some "dry_cleaning",
          items_needing_options := [],
          items_ready_to_add := [{ key := "office_shirt", quantity := 1, options := none }],
          pending_item := some { key := "wedding_dress", quantity := 1, options := none },
          pickup_info := none }) ∧
    (VKV2.handle_option_selection
        { customer_sessions := fun k => if k == "s1" then some
            { cart := [{ service_type := "dry_cleaning", item_key := "pants",
                         name := "Pants", price := 750, quantity := 2,
                         options := ["Crease"], total := 1500 }],
              customer_info := VKSingle.emptyInfo,
              conversation_history := [], current_step := "adding_options",
              created_at := some "t0", selected_service := some "dry_cleaning",
              items_needing_options := [],
              items_ready_to_add := [{ key := "office_shirt", quantity := 1, options := none }],
              pending_item := some { key := "wedding_dress", quantity := 1, options := none },
              pickup_info := none } else none }
        "s1" "Boxed").map
        (fun rs => (rs.1.rtype, rs.2.customer_sessions "s1")) =
      some ("cart_update", some
        { cart := [{ service_type := "dry_cleaning", item_key := "pants",
                     name := "Pants", price := 750, quantity := 2,
                     options := ["Crease"], total := 1500 },
                   { service_type := "dry_cleaning", item_key := "wedding_dress",
                     name := "Wedding Dress", price := 18000, quantity := 1,
                     options := ["Boxed"], total := 18000 },
                   { service_type := "dry_cleaning", item_key := "office_shirt",
                     name := "Office Shirt (Dry-Clean)", price := 550, quantity := 1,
                     options := [], total := 550 }],
          customer_info := VKSingle.emptyInfo,
          conversation_history := [], current_step := "selecting_items",
          created_at := some "t0", selected_service := some "dry_cleaning",
          items_needing_options := [],
          items_ready_to_add := [],
          pending_item := none,
          pickup_info := none }) := by
  refine ⟨by decide, ?_, ?_, ?_⟩
  · exact C1_option_queue_discipline.1
      { customer_sessions := fun k => if k == "s1" then some
          { cart := [], customer_info := VKSingle.emptyInfo,
            conversation_history := [], current_step := "selecting_items",
            created_at := some "t0", selected_service := some "dry_cleaning",
            items_needing_options := [], items_ready_to_add := [],
            pending_item := none, pickup_info := none } else none }
      "s1" "2 pants, an office shirt and a wedding dress"
      [{ key := "pants", quantity := 2, options := none },
       { key := "office_shirt", quantity := 1, options := none },
       { key := "wedding_dress", quantity := 1, options := none }]
      _ "dry_cleaning" _
      { key := "pants", quantity := 2, options := none }
      [{ key := "wedding_dress", quantity := 1, options := none }]
      [{ key := "office_shirt", quantity := 1, options := none }]
      _ rfl rfl rfl rfl rfl rfl
  · exact C1_option_queue_discipline.2.1
      { customer_sessions := fun k => if k == "s1" then some
          { cart := [], customer_info := VKSingle.emptyInfo,
            conversation_history := [], current_step := "adding_options",
            created_at := some "t0", selected_service := some "dry_cleaning",
            items_needing_options := [{ key := "wedding_dress", quantity := 1, options := none }],
            items_ready_to_add := [{ key := "office_shirt", quantity := 1, options := none }],
            pending_item := some { key := "pants", quantity := 2, options := none },
            pickup_info := none } else none }
      "s1" "Crease" _
      { key := "pants", quantity := 2, options := none }
      "dry_cleaning" _ _
      { key := "wedding_dress", quantity := 1, options := none } [] _
      rfl rfl rfl rfl rfl (by decide) rfl rfl rfl rfl
  · exact C1_option_queue_discipline.2.2
      { customer_sessions := fun k => if k == "s1" then some
          { cart := [{ service_type := "dry_cleaning", item_key := "pants",
                       name := "Pants", price := 750, quantity := 2,
                       options := ["Crease"], total := 1500 }],
            customer_info := VKSingle.emptyInfo,
            conversation_history := [], current_step := "adding_options",
            created_at := some "t0", selected_service := some "dry_cleaning",
            items_needing_options := [],
            items_ready_to_add := [{ key := "office_shirt", quantity := 1, options := none }],
            pending_item := some { key := "wedding_dress", quantity := 1, options := none },
            pickup_info := none } else none }
      "s1" "Boxed" _
      { key := "wedding_dress", quantity := 1, options := none }
      "dry_cleaning" _ _
      rfl rfl rfl rfl rfl (by decide) rfl rfl rfl (by decide)

namespace VKSingle

/-- Looking the stored session straight back up (single-file engine). -/
lemma setSession_lookup (st : EngineState) (sid : String) (x : Session) :
    (setSession st sid x).customer_sessions sid = some x := by
  simp [setSession]

end VKSingle

/-- C2 (amended): for every session in any current step, an utterance
    matching a checkout keyword is routed to `handle_checkout` before any
    step-specific handling; with a non-empty cart the checkout response has
    type `checkout_success` and the session is replaced by the fresh reset
    session whose cart is empty.  (No order number is produced by this
    checkout — see the counterexample.) -/
theorem C2_checkout_override (st : VKSingle.EngineState)
    (sid intent input : String) (conf : Rat) (dates : List String)
    (s : VKSingle.Session)
    (hs : st.customer_sessions sid = some s)
    (hkw : VKSingle.checkout_keywords.any
      (fun k => VKStr.containsS k (VKStr.lowerS input)) = true)
    (hcart : s.cart.isEmpty = false) :
    VKSingle.handle_intent st sid intent input conf dates =
      some (VKSingle.handle_checkout st sid) ∧
    (VKSingle.handle_checkout st sid).1.rtype = "checkout_success" ∧
    (VKSingle.handle_checkout st sid).2.customer_sessions sid =
      some VKSingle.resetSession ∧
    VKSingle.resetSession.cart = [] := by
  refine ⟨?_, ?_, ?_, rfl⟩
  · simp only [VKSingle.handle_intent, hs, hkw, if_true]
  · simp only [VKSingle.handle_checkout, hs, hcart, Bool.false_eq_true, if_false]
  · simp only [VKSingle.handle_checkout, hs, hcart, Bool.false_eq_true, if_false,
      VKSingle.setSession_lookup]

/-- Modelled from the spec: §4.6 requires checkout to generate an order
    number of the form fixed prefix + compact timestamp + short suffix; in
    this repository order numbers carry the fixed prefix `VK`
    (`models/order.py` and the render variant, which displays them after
    `Order #:`).  A checkout response "produces an order number" only if its
    message mentions one. -/
def mentions_order_number (msg : String) : Bool :=
  VKStr.containsS "VK" msg || VKStr.containsS "Order #" msg ||
    VKStr.containsS "order number" (VKStr.lowerS msg)

set_option maxRecDepth 20000 in
/-- Counterexample to C2 as stated: on a concrete `selecting_items` session
    with a non-empty cart, the utterance `"checkout"` is indeed routed to
    the checkout handler and empties the cart, but the checkout response
    mentions no order number anywhere (the single-file variant never
    generates one). -/
theorem C2_counterexample :
    VKSingle.handle_intent
        { customer_sessions := fun k => if k == "s1" then some
            { cart := [{ id := 1, service_type := "dry_cleaning",
                         item_key := "office_shirt",
                         name := "Office Shirt (Dry-Clean)", price := 550,
                         quantity := 2, options := [], total := 1100 }],
              customer_info := VKSingle.emptyInfo, conversation_history := [],
              current_step := "selecting_items", created_at := some "t0",
              selected_service := some "dry_cleaning" } else none,
          cart_item_counter := 1 }
        "s1" "unknown" "checkout" 0 [] =
      some (VKSingle.handle_checkout
        { customer_sessions := fun k => if k == "s1" then some
            { cart := [{ id := 1, service_type := "dry_cleaning",
                         item_key := "office_shirt",
                         name := "Office Shirt (Dry-Clean)", price := 550,
                         quantity := 2, options := [], total := 1100 }],
              customer_info := VKSingle.emptyInfo, conversation_history := [],
              current_step := "selecting_items", created_at := some "t0",
              selected_service := some "dry_cleaning" } else none,
          cart_item_counter := 1 } "s1") ∧
    (VKSingle.handle_checkout
        { customer_sessions := fun k => if k == "s1" then some
            { cart := [{ id := 1, service_type := "dry_cleaning",
                         item_key := "office_shirt",
                         name := "Office Shirt (Dry-Clean)", price := 550,
                         quantity := 2, options := [], total := 1100 }],
              customer_info := VKSingle.emptyInfo, conversation_history := [],
              current_step := "selecting_items", created_at := some "t0",
              selected_service := some "dry_cleaning" } else none,
          cart_item_counter := 1 } "s1").1.rtype = "checkout_success" ∧
    ((VKSingle.handle_checkout
        { customer_sessions := fun k => if k == "s1" then some
            { cart := [{ id := 1, service_type := "dry_cleaning",
                         item_key := "office_shirt",
                         name := "Office Shirt (Dry-Clean)", price := 550,
                         quantity := 2, options := [], total := 1100 }],
              customer_info := VKSingle.emptyInfo, conversation_history := [],
              current_step := "selecting_items", created_at := some "t0",
              selected_service := some "dry_cleaning" } else none,
          cart_item_counter := 1 } "s1").2.customer_sessions "s1").map
      (fun s => s.cart) = some [] ∧
    mentions_order_number (VKSingle.handle_checkout
        { customer_sessions := fun k => if k == "s1" then some
            { cart := [{ id := 1, service_type := "dry_cleaning",
                         item_key := "office_shirt",
                         name := "Office Shirt (Dry-Clean)", price := 550,
                         quantity := 2, options := [], total := 1100 }],
              customer_info := VKSingle.emptyInfo, conversation_history := [],
              current_step := "selecting_items", created_at := some "t0",
              selected_service := some "dry_cleaning" } else none,
          cart_item_counter := 1 } "s1").1.message = false := by
  refine ⟨rfl, rfl, rfl, ?_⟩
  decide

/-- Witness for C2 on the same concrete session. -/
theorem C2_checkout_override_witness :
    (({ customer_sessions := fun k => if k == "s1" then some
          { cart := [{ id := 1, service_type := "dry_cleaning",
                       item_key := "office_shirt",
                       name := "Office Shirt (Dry-Clean)", price := 550,
                       quantity := 2, options := [], total := 1100 }],
            customer_info := VKSingle.emptyInfo, conversation_history := [],
            current_step := "selecting_items", created_at := some "t0",
            selected_service := some "dry_cleaning" } else none,
        cart_item_counter := 1 } : VKSingle.EngineState).customer_sessions "s1" ≠ none) ∧
    VKSingle.checkout_keywords.any
      (fun k => VKStr.containsS k (VKStr.lowerS "please checkout now")) = true ∧
    (VKSingle.handle_intent
        { customer_sessions := fun k => if k == "s1" then some
            { cart := [{ id := 1, service_type := "dry_cleaning",
                         item_key := "office_shirt",
                         name := "Office Shirt (Dry-Clean)", price := 550,
                         quantity := 2, options := [], total := 1100 }],
              customer_info := VKSingle.emptyInfo, conversation_history := [],
              current_step := "selecting_items", created_at := some "t0",
              selected_service := some "dry_cleaning" } else none,
          cart_item_counter := 1 }
        "s1" "unknown" "please checkout now" 0 [] =
      some (VKSingle.handle_checkout
        { customer_sessions := fun k => if k == "s1" then some
            { cart := [{ id := 1, service_type := "dry_cleaning",
                         item_key := "office_shirt",
                         name := "Office Shirt (Dry-Clean)", price := 550,
                         quantity := 2, options := [], total := 1100 }],
              customer_info := VKSingle.emptyInfo, conversation_history := [],
              current_step := "selecting_items", created_at := some "t0",
              selected_service := some "dry_cleaning" } else none,
          cart_item_counter := 1 } "s1") ∧
     (VKSingle.handle_checkout
        { customer_sessions := fun k => if k == "s1" then some
            { cart := [{ id := 1, service_type := "dry_cleaning",
                         item_key := "office_shirt",
                         name := "Office Shirt (Dry-Clean)", price := 550,
                         quantity := 2, options := [], total := 1100 }],
              customer_info := VKSingle.emptyInfo, conversation_history := [],
              current_step := "selecting_items", created_at := some "t0",
              selected_service := some "dry_cleaning" } else none,
          cart_item_counter := 1 } "s1").1.rtype = "checkout_success" ∧
     (VKSingle.handle_checkout
        { customer_sessions := fun k => if k == "s1" then some
            { cart := [{ id := 1, service_type := "dry_cleaning",
                         item_key := "office_shirt",
                         name := "Office Shirt (Dry-Clean)", price := 550,
                         quantity := 2, options := [], total := 1100 }],
              customer_info := VKSingle.emptyInfo, conversation_history := [],
              current_step := "selecting_items", created_at := some "t0",
              selected_service := some "dry_cleaning" } else none,
          cart_item_counter := 1 } "s1").2.customer_sessions "s1" =
       some VKSingle.resetSession ∧
     VKSingle.resetSession.cart = []) :=
  ⟨by decide, by decide,
   C2_checkout_override
     { customer_sessions := fun k => if k == "s1" then some
         { cart := [{ id := 1, service_type := "dry_cleaning",
                      item_key := "office_shirt",
                      name := "Office Shirt (Dry-Clean)", price := 550,
                      quantity := 2, options := [], total := 1100 }],
           customer_info := VKSingle.emptyInfo, conversation_history := [],
           current_step := "selecting_items", created_at := some "t0",
           selected_service := some "dry_cleaning" } else none,
       cart_item_counter := 1 }
     "s1" "unknown" "please checkout now" 0 []
     { cart := [{ id := 1, service_type := "dry_cleaning",
                  item_key := "office_shirt",
                  name := "Office Shirt (Dry-Clean)", price := 550,
                  quantity := 2, options := [], total := 1100 }],
       customer_info := VKSingle.emptyInfo, conversation_history := [],
       current_step := "selecting_items", created_at := some "t0",
       selected_service := some "dry_cleaning" }
     rfl (by decide) rfl⟩

/-- C7 (amended): while `current_step == collecting_info` with the name
    already collected and the email still unset, every utterance that does
    not match the checkout/view-cart keyword override is treated as a
    candidate email; when validation fails, the engine responds with the
    validation error and re-prompts for the email, and the state is returned
    completely unchanged (the email stays unset and `current_step` does not
    advance). -/
theorem C7_email_validation_gate (st : VKSingle.EngineState)
    (sid intent input : String) (conf : Rat) (dates : List String)
    (s : VKSingle.Session) (nm msg : String)
    (hs : st.customer_sessions sid = some s)
    (hstep : s.current_step = "collecting_info")
    (hname : s.customer_info.name = some nm)
    (hemail : s.customer_info.email = none)
    (hck : VKSingle.checkout_keywords.any
      (fun k => VKStr.containsS k (VKStr.lowerS input)) = false)
    (hvc : VKSingle.view_cart_keywords.any
      (fun k => VKStr.containsS k (VKStr.lowerS input)) = false)
    (hval : VKSingle.validate_email (VKStr.stripS input) = (false, msg)) :
    VKSingle.handle_intent st sid intent input conf dates =
      some ({ message := "❌ " ++ msg ++ "\n\nPlease enter a valid email:",
              rtype := "info_collection", collecting := some "email" }, st) := by
  simp only [VKSingle.handle_intent, hs, hck, hvc, hstep, Bool.false_eq_true,
    if_false, beq_self_eq_true, if_true, VKSingle.handle_info_collection,
    hname, hemail, hval]
  rfl

/-- Counterexample to C7 as stated: with `current_step == collecting_info`
    and the email unset but the name also still unset, the utterance
    `"not-an-email"` is not validated as an email at all — it is stored as
    the customer's name (a state mutation), and the response thanks the user
    by that name instead of showing the email-validation error. -/
theorem C7_counterexample :
    (VKSingle.validate_email (VKStr.stripS "not-an-email")).1 = false ∧
    (VKSingle.handle_intent
        { customer_sessions := fun k => if k == "s1" then some
            { cart := [], customer_info := VKSingle.emptyInfo,
              conversation_history := [], current_step := "collecting_info",
              created_at := some "t0", selected_service := none } else none,
          cart_item_counter := 0 }
        "s1" "unknown" "not-an-email" 0 []).map (fun rs => rs.1.message) =
      some "Thank you, not-an-email! 📧 **Your Email:**" ∧
    VKStr.containsS "Please enter a valid email address"
      "Thank you, not-an-email! 📧 **Your Email:**" = false ∧
    (VKSingle.handle_intent
        { customer_sessions := fun k => if k == "s1" then some
            { cart := [], customer_info := VKSingle.emptyInfo,
              conversation_history := [], current_step := "collecting_info",
              created_at := some "t0", selected_service := none } else none,
          cart_item_counter := 0 }
        "s1" "unknown" "not-an-email" 0 []).map
        (fun rs => (rs.2.customer_sessions "s1").map
          (fun s => (s.customer_info.name, s.customer_info.email, s.current_step))) =
      some (some (some "not-an-email", none, "collecting_info")) := by
  refine ⟨by decide, rfl, by decide, rfl⟩

/-- Witness for C7 with the name already collected: `"not-an-email"` is
    rejected and re-prompted with the validation error, leaving the state
    untouched. -/
theorem C7_email_validation_gate_witness :
    VKSingle.validate_email (VKStr.stripS "not-an-email") =
      (false, "Please enter a valid email address (e.g., john@example.com)") ∧
    VKSingle.handle_intent
        { customer_sessions := fun k => if k == "s1" then some
            { cart := [],
              customer_info := { name := some "Ada", email := none,
                                 address := none, phone := none,
                                 pickup_date := none, pickup_time := none },
              conversation_history := [], current_step := "collecting_info",
              created_at := some "t0", selected_service := none } else none,
          cart_item_counter := 0 }
        "s1" "unknown" "not-an-email" 0 [] =
      some ({ message := "❌ Please enter a valid email address (e.g., john@example.com)\n\nPlease enter a valid email:",
              rtype := "info_collection", collecting := some "email" },
            { customer_sessions := fun k => if k == "s1" then some
                { cart := [],
                  customer_info := { name := some "Ada", email := none,
                                     address := none, phone := none,
                                     pickup_date := none, pickup_time := none },
                  conversation_history := [], current_step := "collecting_info",
                  created_at := some "t0", selected_service := none } else none,
              cart_item_counter := 0 }) :=
  ⟨by decide,
   C7_email_validation_gate
     { customer_sessions := fun k => if k == "s1" then some
         { cart := [],
           customer_info := { name := some "Ada", email := none,
                              address := none, phone := none,
                              pickup_date := none, pickup_time := none },
           conversation_history := [], current_step := "collecting_info",
           created_at := some "t0", selected_service := none } else none,
       cart_item_counter := 0 }
     "s1" "unknown" "not-an-email" 0 []
     { cart := [],
       customer_info := { name := some "Ada", email := none,
                          address := none, phone := none,
                          pickup_date := none, pickup_time := none },
       conversation_history := [], current_step := "collecting_info",
       created_at := some "t0", selected_service := none }
     "Ada" "Please enter a valid email address (e.g., john@example.com)"
     rfl rfl rfl rfl (by decide) (by decide) (by decide)⟩

namespace VKSingle

/-- Storing a session with an unchanged transcript leaves every session's
    transcript view unchanged. -/
lemma map_hist_setSession (st : EngineState) (sid : String) (s s' : Session)
    (hs : st.customer_sessions sid = some s)
    (hh : s'.conversation_history = s.conversation_history) (k : String) :
    ((setSession st sid s').customer_sessions k).map (·.conversation_history) =
      (st.customer_sessions k).map (·.conversation_history) := by
  by_cases hk : k = sid
  · subst hk
    simp [setSession, hs, hh]
  · simp [setSession, hk]

/-- `add_to_cart` never touches any conversation history. -/
lemma map_hist_add_to_cart (st : EngineState) (sid svc key : String) (q : Nat)
    (opts : List String) (k : String) :
    ((add_to_cart st sid svc key q opts).2.customer_sessions k).map
        (·.conversation_history) =
      (st.customer_sessions k).map (·.conversation_history) := by
  cases hs : st.customer_sessions sid with
  | none => simp [add_to_cart, hs]
  | some s =>
    cases hc : VKAssoc.lookupA service_catalog svc with
    | none => simp [add_to_cart, hs, hc]
    | some cat =>
      cases hi : VKAssoc.lookupA cat.items key with
      | none => simp [add_to_cart, hs, hc, hi]
      | some item =>
        by_cases hk : k = sid
        · subst hk
          simp [add_to_cart, hs, hc, hi]
        · simp [add_to_cart, hs, hc, hi, hk]

/-- The item-adding loop never touches any conversation history. -/
lemma map_hist_addLoop (sid svc : String) :
    ∀ (ps : List ParsedS) (st : EngineState) (tags : List String)
      (st' : EngineState) (k : String),
      addLoop st sid svc ps = some (tags, st') →
      (st'.customer_sessions k).map (·.conversation_history) =
        (st.customer_sessions k).map (·.conversation_history) := by
  intro ps
  induction ps with
  | nil =>
    intro st tags st' k h
    simp only [addLoop, Option.some.injEq, Prod.mk.injEq] at h
    rw [← h.2]
  | cons p rest ih =>
    intro st tags st' k h
    cases hc : VKAssoc.lookupA service_catalog svc with
    | none => simp [addLoop, hc] at h
    | some cat =>
      cases hi : VKAssoc.lookupA cat.items p.key with
      | none => simp [addLoop, hc, hi] at h
      | some d =>
        simp only [addLoop, hc, hi] at h
        cases hrec : addLoop (add_to_cart st sid svc p.key p.quantity []).2
            sid svc rest with
        | none => rw [hrec] at h; cases h
        | some ar =>
          rw [hrec] at h
          simp only [Option.some.injEq, Prod.mk.injEq] at h
          rw [← h.2]
          exact (ih _ ar.1 ar.2 k (by rw [hrec])).trans
            (map_hist_add_to_cart st sid svc p.key p.quantity [] k)

/-- `handle_service_selection` never touches any conversation history. -/
lemma map_hist_service_selection (st : EngineState) (sid input : String)
    (r : Response) (st' : EngineState) (k : String)
    (h : handle_service_selection st sid input = some (r, st')) :
    (st'.customer_sessions k).map (·.conversation_history) =
      (st.customer_sessions k).map (·.conversation_history) := by
  unfold handle_service_selection at h
  cases hs : st.customer_sessions sid with
  | none => simp [hs] at h
  | some s =>
    simp only [hs] at h
    split at h
    · cases hm : show_dry_cleaning_menu with
      | none => simp [hm] at h
      | some r0 =>
        simp only [hm, Option.map_some', Option.map_some, Option.some.injEq, Prod.mk.injEq] at h
        rw [← h.2]
        refine map_hist_setSession st sid s _ hs ?_ k
        rfl
    · split at h
      · cases hm : show_laundry_menu with
        | none => simp [hm] at h
        | some r0 =>
          simp only [hm, Option.map_some', Option.map_some, Option.some.injEq, Prod.mk.injEq] at h
          rw [← h.2]
          refine map_hist_setSession st sid s _ hs ?_ k
          rfl
      · simp only [Option.some.injEq, Prod.mk.injEq] at h
        rw [← h.2]

/-- `handle_info_collection` never touches any conversation history. -/
lemma map_hist_info_collection (st : EngineState) (sid input : String)
    (dates : List String) (r : Response) (st' : EngineState) (k : String)
    (h : handle_info_collection st sid input dates = some (r, st')) :
    (st'.customer_sessions k).map (·.conversation_history) =
      (st.customer_sessions k).map (·.conversation_history) := by
  unfold handle_info_collection at h
  cases hs : st.customer_sessions sid with
  | none => simp [hs] at h
  | some s =>
    simp only [hs] at h
    repeat' split at h
    all_goals try exact Option.noConfusion h
    all_goals
      simp only [Option.some.injEq, Prod.mk.injEq] at h
      rw [← h.2]
      try first
        | rfl
        | (refine map_hist_setSession st sid s _ hs ?_ k; rfl)

/-- `handle_item_selection` never touches any conversation history. -/
lemma map_hist_item_selection (st : EngineState) (sid input : String)
    (r : Response) (st' : EngineState) (k : String)
    (h : handle_item_selection st sid input = some (r, st')) :
    (st'.customer_sessions k).map (·.conversation_history) =
      (st.customer_sessions k).map (·.conversation_history) := by
  unfold handle_item_selection at h
  cases hs : st.customer_sessions sid with
  | none => simp [hs] at h
  | some s =>
    simp only [hs] at h
    cases hss : s.selected_service with
    | none =>
      simp only [hss] at h
      exact map_hist_service_selection st sid input r st' k h
    | some svc =>
      simp only [hss] at h
      cases hp : parse_item_request input svc with
      | none => simp [hp] at h
      | some parsed =>
        simp only [hp] at h
        split at h
        · cases hg : get_item_suggestions svc with
          | none => simp [hg] at h
          | some sugg =>
            simp only [hg, Option.map_some', Option.map_some, Option.some.injEq, Prod.mk.injEq] at h
            rw [← h.2]
        · cases hal : addLoop st sid svc parsed with
          | none => simp [hal] at h
          | some ar =>
            simp only [hal] at h
            split at h
            · cases hsum : get_cart_summary ar.2 sid with
              | none => simp [hsum] at h
              | some summary =>
                simp only [hsum, Option.some.injEq, Prod.mk.injEq] at h
                rw [← h.2]
                exact map_hist_addLoop sid svc parsed st ar.1 ar.2 k (by rw [hal])
            · cases hg : get_item_suggestions svc with
              | none => simp [hg] at h
              | some sugg =>
                simp only [hg, Option.map_some', Option.map_some, Option.some.injEq, Prod.mk.injEq] at h
                rw [← h.2]
                exact map_hist_addLoop sid svc parsed st ar.1 ar.2 k (by rw [hal])

end VKSingle

/-- C4 (amended): ordinary engine operations never mutate or delete
    conversation turns — the customer-info, service-selection and
    item-selection handlers leave every session's transcript untouched
    (turns are only appended around them by `generate_response`) — but
    checkout does not: both the single-file and the v2 `handle_checkout`,
    reaching their success path on a non-empty cart, replace the session
    with a fresh dict whose transcript is empty, deleting every existing
    ConversationTurn. -/
theorem C4_transcript_append_only :
    (∀ (st : VKSingle.EngineState) (sid input : String) (dates : List String)
       (r : VKSingle.Response) (st' : VKSingle.EngineState) (k : String),
      VKSingle.handle_info_collection st sid input dates = some (r, st') →
      (st'.customer_sessions k).map (·.conversation_history) =
        (st.customer_sessions k).map (·.conversation_history)) ∧
    (∀ (st : VKSingle.EngineState) (sid input : String)
       (r : VKSingle.Response) (st' : VKSingle.EngineState) (k : String),
      VKSingle.handle_item_selection st sid input = some (r, st') →
      (st'.customer_sessions k).map (·.conversation_history) =
        (st.customer_sessions k).map (·.conversation_history)) ∧
    (∀ (st : VKSingle.EngineState) (sid : String) (s : VKSingle.Session),
      st.customer_sessions sid = some s → s.cart.isEmpty = false →
      (VKSingle.handle_checkout st sid).2.customer_sessions sid =
        some VKSingle.resetSession ∧
      VKSingle.resetSession.conversation_history = []) ∧
    (∀ (st : VKV2.EngineState) (sid : String) (s : VKV2.Session)
       (pi : VKV2.PickupInfo) (pd : String),
      st.customer_sessions sid = some s → s.cart.isEmpty = false →
      s.pickup_info = some pi → pi.pickup_date = some pd →
      (VKV2.handle_checkout st sid).2.customer_sessions sid =
        some VKV2.resetSession ∧
      VKV2.resetSession.conversation_history = []) := by
  refine ⟨?_, ?_, ?_, ?_⟩
  · intro st sid input dates r st' k h
    exact VKSingle.map_hist_info_collection st sid input dates r st' k h
  · intro st sid input r st' k h
    exact VKSingle.map_hist_item_selection st sid input r st' k h
  · intro st sid s hs hcart
    refine ⟨?_, rfl⟩
    simp only [VKSingle.handle_checkout, hs, hcart, Bool.false_eq_true, if_false,
      VKSingle.setSession_lookup]
  · intro st sid s pi pd hs hcart hpi hpd
    refine ⟨?_, rfl⟩
    simp only [VKV2.handle_checkout, hs, hcart, hpi, hpd, Option.isNone_some,
      Bool.false_eq_true, if_false, VKV2.setSession_self]

/-- Counterexample to C4 as stated: `handle_checkout` on a session holding
    two conversation turns and a non-empty cart leaves the stored session
    with an empty transcript — the existing turns are deleted by an engine
    operation, not by session expiry. -/
theorem C4_counterexample :
    ((({ customer_sessions := fun k => if k == "s1" then some
           { cart := [{ id := 1, service_type := "dry_cleaning",
                        item_key := "office_shirt",
                        name := "Office Shirt (Dry-Clean)", price := 550,
                        quantity := 2, options := [], total := 1100 }],
             customer_info := VKSingle.emptyInfo,
             conversation_history := [VKSingle.Turn.user "hi" "t1",
                                      VKSingle.Turn.bot "hello" "t2"],
             current_step := "selecting_items", created_at := some "t0",
             selected_service := some "dry_cleaning" } else none,
         cart_item_counter := 1 } : VKSingle.EngineState).customer_sessions "s1").map
      (·.conversation_history)) =
      some [VKSingle.Turn.user "hi" "t1", VKSingle.Turn.bot "hello" "t2"] ∧
    (((VKSingle.handle_checkout
        { customer_sessions := fun k => if k == "s1" then some
            { cart := [{ id := 1, service_type := "dry_cleaning",
                         item_key := "office_shirt",
                         name := "Office Shirt (Dry-Clean)", price := 550,
                         quantity := 2, options := [], total := 1100 }],
              customer_info := VKSingle.emptyInfo,
              conversation_history := [VKSingle.Turn.user "hi" "t1",
                                       VKSingle.Turn.bot "hello" "t2"],
              current_step := "selecting_items", created_at := some "t0",
              selected_service := some "dry_cleaning" } else none,
          cart_item_counter := 1 } "s1").2.customer_sessions "s1").map
      (·.conversation_history)) = some [] := by
  exact ⟨rfl, rfl⟩

/-- Witness for C4: the info-collection clause at a concrete name turn, the
    single-file checkout clause, and the v2 checkout clause, each on
    concrete sessions. -/
theorem C4_transcript_append_only_witness :
    (VKSingle.handle_info_collection
        { customer_sessions := fun k => if k == "s1" then some
            { cart := [], customer_info := VKSingle.emptyInfo,
              conversation_history := [VKSingle.Turn.user "hi" "t1"],
              current_step := "collecting_info", created_at := some "t0",
              selected_service := none } else none,
          cart_item_counter := 0 } "s1" "Ada" [] =
      some ({ message := "Thank you, Ada! 📧 **Your Email:**",
              rtype := "info_collection", collecting := some "email" },
            VKSingle.setSession
              { customer_sessions := fun k => if k == "s1" then some
                  { cart := [], customer_info := VKSingle.emptyInfo,
                    conversation_history := [VKSingle.Turn.user "hi" "t1"],
                    current_step := "collecting_info", created_at := some "t0",
                    selected_service := none } else none,
                cart_item_counter := 0 } "s1"
              { cart := [],
                customer_info := { name := some "Ada", email := none,
                                   address := none, phone := none,
                                   pickup_date := none, pickup_time := none },
                conversation_history := [VKSingle.Turn.user "hi" "t1"],
                current_step := "collecting_info", created_at := some "t0",
                selected_service := none })) ∧
    ((VKSingle.setSession
        { customer_sessions := fun k => if k == "s1" then some
            { cart := [], customer_info := VKSingle.emptyInfo,
              conversation_history := [VKSingle.Turn.user "hi" "t1"],
              current_step := "collecting_info", created_at := some "t0",
              selected_service := none } else none,
          cart_item_counter := 0 } "s1"
        { cart := [],
          customer_info := { name := some "Ada", email := none,
                             address := none, phone := none,
                             pickup_date := none, pickup_time := none },
          conversation_history := [VKSingle.Turn.user "hi" "t1"],
          current_step := "collecting_info", created_at := some "t0",
          selected_service := none }).customer_sessions "s1").map
      (·.conversation_history) =
      (({ customer_sessions := fun k => if k == "s1" then some
            { cart := [], customer_info := VKSingle.emptyInfo,
              conversation_history := [VKSingle.Turn.user "hi" "t1"],
              current_step := "collecting_info", created_at := some "t0",
              selected_service := none } else none,
          cart_item_counter := 0 } : VKSingle.EngineState).customer_sessions "s1").map
        (·.conversation_history) ∧
    ((VKSingle.handle_checkout
        { customer_sessions := fun k => if k == "s1" then some
            { cart := [{ id := 1, service_type := "dry_cleaning",
                         item_key := "office_shirt",
                         name := "Office Shirt (Dry-Clean)", price := 550,
                         quantity := 2, options := [], total := 1100 }],
              customer_info := VKSingle.emptyInfo,
              conversation_history := [VKSingle.Turn.user "hi" "t1"],
              current_step := "selecting_items", created_at := some "t0",
              selected_service := some "dry_cleaning" } else none,
          cart_item_counter := 1 } "s1").2.customer_sessions "s1" =
        some VKSingle.resetSession ∧
      VKSingle.resetSession.conversation_history = []) ∧
    ((VKV2.handle_checkout
        { customer_sessions := fun k => if k == "s1" then some
            { cart := [{ service_type := "dry_cleaning", item_key := "pants",
                         name := "Pants", price := 750, quantity := 2,
                         options := ["Crease"], total := 1500 }],
              customer_info := VKSingle.emptyInfo,
              conversation_history := [VKSingle.Turn.user "hi" "t1"],
              current_step := "selecting_items", created_at := some "t0",
              selected_service := some "dry_cleaning",
              items_needing_options := [], items_ready_to_add := [],
              pending_item := none,
              pickup_info := some { collecting := none,
                                    pickup_date := some "Tomorrow" } } else none }
        "s1").2.customer_sessions "s1" =
        some VKV2.resetSession ∧
      VKV2.resetSession.conversation_history = []) := by
  refine ⟨rfl, ?_, ?_, ?_⟩
  · exact C4_transcript_append_only.1
      { customer_sessions := fun k => if k == "s1" then some
          { cart := [], customer_info := VKSingle.emptyInfo,
            conversation_history := [VKSingle.Turn.user "hi" "t1"],
            current_step := "collecting_info", created_at := some "t0",
            selected_service := none } else none,
        cart_item_counter := 0 } "s1" "Ada" []
      { message := "Thank you, Ada! 📧 **Your Email:**",
        rtype := "info_collection", collecting := some "email" }
      _ "s1" rfl
  · exact C4_transcript_append_only.2.2.1
      { customer_sessions := fun k => if k == "s1" then some
          { cart := [{ id := 1, service_type := "dry_cleaning",
                       item_key := "office_shirt",
                       name := "Office Shirt (Dry-Clean)", price := 550,
                       quantity := 2, options := [], total := 1100 }],
            customer_info := VKSingle.emptyInfo,
            conversation_history := [VKSingle.Turn.user "hi" "t1"],
            current_step := "selecting_items", created_at := some "t0",
            selected_service := some "dry_cleaning" } else none,
        cart_item_counter := 1 } "s1" _ rfl (by decide)
  · exact C4_transcript_append_only.2.2.2
      { customer_sessions := fun k => if k == "s1" then some
          { cart := [{ service_type := "dry_cleaning", item_key := "pants",
                       name := "Pants", price := 750, quantity := 2,
                       options := ["Crease"], total := 1500 }],
            customer_info := VKSingle.emptyInfo,
            conversation_history := [VKSingle.Turn.user "hi" "t1"],
            current_step := "selecting_items", created_at := some "t0",
            selected_service := some "dry_cleaning",
            items_needing_options := [], items_ready_to_add := [],
            pending_item := none,
            pickup_info := some { collecting := none,
                                  pickup_date := some "Tomorrow" } } else none }
      "s1" _ { collecting := none, pickup_date := some "Tomorrow" } "Tomorrow"
      rfl (by decide) rfl rfl
